import Mathlib

/-!
# Verification of the Process-Query parsing core

A shallow embedding, over `List Char`, of the parsing and data-modeling layer
of the Process-Query repository (`src/procrs`): the `/proc/[pid]/stat` parser
(`pid/stat.rs`), the `/proc/[pid]/status` parser (`pid/status.rs`), the
`/proc/meminfo` parser (`meminfo/mod.rs`), the process-directory iterator
filter and query matcher (`pid/mod.rs`), and the error taxonomy (`error.rs`).

Rust strings are modeled as `List Char`; `u64`/`i64`/`u32`/`i32` values as
`Nat`/`Int` with the parse functions enforcing the machine-integer ranges and
wrapping arithmetic written with an explicit `% 2 ^ 64`.  Fallible Rust code
returning `Result` is modeled with `Except`; a Rust panic (`unwrap` on `None`)
is modeled as `Option.none` of an enclosing `Option`.
-/

deriving instance DecidableEq for Except

namespace ProcQ

/-- Is an `Except` value an `ok`? -/
def isOkE {ε α : Type} : Except ε α → Bool
  | .ok _ => true
  | .error _ => false

/-! ## String primitives (counterparts of the `std::str` methods used) -/

/-- ASCII/`char::is_whitespace` test for the characters that occur in proc
records (space, tab, newline, carriage return, vertical tab, form feed). -/
def isWh (c : Char) : Bool :=
  c = ' ' || c = '\t' || c = '\n' || c = '\r' || c = '\x0b' || c = '\x0c'

/-- `str::trim`: drop leading and trailing whitespace. -/
def trim (s : List Char) : List Char :=
  ((s.dropWhile fun c => isWh c).reverse.dropWhile fun c => isWh c).reverse

/-- `str::split(sep)` : split at every occurrence of `sep`; always yields at
least one (possibly empty) piece. -/
def splitChar (sep : Char) : List Char → List (List Char)
  | [] => [[]]
  | c :: cs =>
    if c = sep then [] :: splitChar sep cs
    else match splitChar sep cs with
      | [] => [[c]]
      | t :: ts => (c :: t) :: ts

/-- `str::splitn(2, sep)` as used through two `next()` calls: the text before
the first `sep`, and `some` remainder after it (or `none` if `sep` does not
occur). -/
def splitnFirst (sep : Char) : List Char → List Char × Option (List Char)
  | [] => ([], none)
  | c :: cs =>
    if c = sep then ([], some cs)
    else
      let p := splitnFirst sep cs
      (c :: p.1, p.2)

/-- `str::rsplitn(2, sep)` as used through two `next()` calls: the text after
the last `sep`, and `some` text before it (or `none` if `sep` does not
occur). -/
def rsplitnFirst (sep : Char) (s : List Char) : List Char × Option (List Char) :=
  let p := splitnFirst sep s.reverse
  (p.1.reverse, p.2.map List.reverse)

/-- First index satisfying `p` (`str::find`). -/
def findIdxA (p : Char → Bool) : List Char → Option Nat
  | [] => none
  | c :: cs => if p c then some 0 else (findIdxA p cs).map (· + 1)

/-- Does `s` start with `pat`? -/
def startsWithB : List Char → List Char → Bool
  | _, [] => true
  | [], _ :: _ => false
  | c :: cs, d :: ds => c = d && startsWithB cs ds

/-- `str::contains(pat)`: substring search. -/
def containsSub (s pat : List Char) : Bool :=
  startsWithB s pat ||
    match s with
    | [] => false
    | _ :: cs => containsSub cs pat

/-- Does `s` end with `pat`? -/
def endsWithB (s pat : List Char) : Bool :=
  startsWithB s.reverse pat.reverse

/-- `str::trim_matches(c)`: remove every leading and trailing occurrence of
the character `c`. -/
def trimMatchesChar (c : Char) (s : List Char) : List Char :=
  ((s.dropWhile fun d => d = c).reverse.dropWhile fun d => d = c).reverse

theorem startsWithB_length {s pat : List Char} (h : startsWithB s pat = true) :
    pat.length ≤ s.length := by
  induction s generalizing pat with
  | nil =>
    cases pat with
    | nil => simp
    | cons d ds => simp [startsWithB] at h
  | cons c cs ih =>
    cases pat with
    | nil => simp
    | cons d ds =>
      simp only [startsWithB, Bool.and_eq_true] at h
      have := ih h.2
      simp only [List.length_cons]
      omega

/-- One `trim_right_matches` round per unit of fuel; `s.length + 1` fuel
always suffices since each round shortens `s`. -/
def trimRightMatchesAux (pat : List Char) : Nat → List Char → List Char
  | 0, s => s
  | fuel + 1, s =>
    if pat ≠ [] ∧ endsWithB s pat = true then
      trimRightMatchesAux pat fuel (s.take (s.length - pat.length))
    else s

/-- `str::trim_right_matches(pat)`: repeatedly remove the suffix `pat`. -/
def trimRightMatches (pat s : List Char) : List Char :=
  trimRightMatchesAux pat (s.length + 1) s

/-- `str::split_whitespace` helper; `acc` is the current token, reversed. -/
def splitWhAux : List Char → List Char → List (List Char)
  | [], acc => if acc = [] then [] else [acc.reverse]
  | c :: cs, acc =>
    if isWh c then
      if acc = [] then splitWhAux cs []
      else acc.reverse :: splitWhAux cs []
    else splitWhAux cs (c :: acc)

/-- `str::split_whitespace`: whitespace-separated tokens, empties dropped. -/
def splitWh (s : List Char) : List (List Char) :=
  splitWhAux s []

/-! ## Integer parsing (counterpart of Rust `str::parse::<uN>/<iN>`) -/

/-- Numeric value of an ASCII digit. -/
def digitVal (c : Char) : Option Nat :=
  if '0' ≤ c ∧ c ≤ '9' then some (c.toNat - '0'.toNat) else none

/-- Accumulating decimal parse; `none` on the first non-digit. -/
def parseDigitsAux (acc : Nat) : List Char → Option Nat
  | [] => some acc
  | c :: cs =>
    match digitVal c with
    | none => none
    | some d => parseDigitsAux (acc * 10 + d) cs

/-- Parse a nonempty all-digit string as a `Nat`. -/
def parseDigits : List Char → Option Nat
  | [] => none
  | c :: cs => parseDigitsAux 0 (c :: cs)

/-- Strip one leading `+` sign, if present. -/
def stripPlus : List Char → List Char
  | [] => []
  | c :: r => if c = '+' then r else c :: r

/-- Rust `str::parse::<uN>` for a `w`-bit unsigned integer: an optional `+`
sign, then digits, failing on overflow. -/
def parseUIntW (w : Nat) (s : List Char) : Option Nat :=
  match parseDigits (stripPlus s) with
  | none => none
  | some n => if n < 2 ^ w then some n else none

/-- Rust `str::parse::<iN>` for a `w`-bit signed integer: an optional sign,
then digits, failing outside `[-2^(w-1), 2^(w-1))`. -/
def parseIntW (w : Nat) (s : List Char) : Option Int :=
  match s with
  | [] => none
  | c :: r =>
    if c = '-' then
      match parseDigits r with
      | none => none
      | some n => if n ≤ 2 ^ (w - 1) then some (-(n : Int)) else none
    else
      match parseDigits (stripPlus (c :: r)) with
      | none => none
      | some n => if n < 2 ^ (w - 1) then some (n : Int) else none

/-- `u64` wrapping subtraction (release-mode Rust semantics). -/
def wsub64 (a b : Nat) : Nat := (a + 2 ^ 64 - b % 2 ^ 64) % 2 ^ 64

/-! ## Decimal rendering, for quantifying over numeric record values -/

/-- Decimal rendering of a `Nat` (most significant digit first). -/
def natToChars (n : Nat) : List Char :=
  if h : n < 10 then [Char.ofNat (n + 48)]
  else natToChars (n / 10) ++ [Char.ofNat (n % 10 + 48)]
termination_by n
decreasing_by omega

theorem digitVal_ofNat {m : Nat} (h : m < 10) :
    digitVal (Char.ofNat (m + 48)) = some m := by
  interval_cases m <;> decide

theorem natToChars_digits (n : Nat) :
    ∀ c ∈ natToChars n, '0' ≤ c ∧ c ≤ '9' := by
  induction n using Nat.strong_induction_on with
  | _ n ih =>
    intro c hc
    rw [natToChars] at hc
    by_cases h : n < 10
    · simp only [h, dite_true, List.mem_singleton] at hc
      subst hc
      interval_cases n <;> exact ⟨by decide, by decide⟩
    · simp only [h, dite_false, List.mem_append, List.mem_singleton] at hc
      rcases hc with hc | hc
      · exact ih (n / 10) (by omega) c hc
      · subst hc
        have h10 : n % 10 < 10 := Nat.mod_lt _ (by omega)
        interval_cases hm : n % 10 <;> exact ⟨by decide, by decide⟩

theorem natToChars_ne_nil (n : Nat) : natToChars n ≠ [] := by
  rw [natToChars]
  by_cases h : n < 10 <;> simp [h]

theorem parseDigitsAux_append (acc : Nat) (xs ys : List Char) :
    parseDigitsAux acc (xs ++ ys) =
      match parseDigitsAux acc xs with
      | none => none
      | some v => parseDigitsAux v ys := by
  induction xs generalizing acc with
  | nil => simp [parseDigitsAux]
  | cons c cs ih =>
    simp only [List.cons_append, parseDigitsAux]
    cases digitVal c with
    | none => simp
    | some d => simp [ih]

/-- Magnitude helper: `10 ^ (number of decimal digits of n)`. -/
def mag (n : Nat) : Nat :=
  if _ : n < 10 then 10 else mag (n / 10) * 10
termination_by n
decreasing_by omega

theorem parseDigitsAux_natToChars (n : Nat) :
    ∀ acc, parseDigitsAux acc (natToChars n) = some (acc * mag n + n) := by
  induction n using Nat.strong_induction_on with
  | _ n ih =>
    intro acc
    rw [natToChars, mag]
    by_cases h : n < 10
    · simp only [h, dite_true]
      simp [parseDigitsAux, digitVal_ofNat h]
    · simp only [h, dite_false]
      rw [parseDigitsAux_append, ih (n / 10) (by omega) acc]
      have h10 : n % 10 < 10 := Nat.mod_lt _ (by omega)
      simp only [parseDigitsAux, digitVal_ofNat h10]
      have : (acc * mag (n / 10) + n / 10) * 10 + n % 10 =
          acc * (mag (n / 10) * 10) + n := by
        have := Nat.div_add_mod n 10
        ring_nf
        omega
      simp [parseDigitsAux, this]

theorem parseDigits_natToChars (n : Nat) :
    parseDigits (natToChars n) = some n := by
  have hne := natToChars_ne_nil n
  cases h : natToChars n with
  | nil => exact absurd h hne
  | cons c cs =>
    rw [parseDigits, ← h, parseDigitsAux_natToChars n 0]
    simp

theorem natToChars_head_not_sign (n : Nat) :
    ∀ c cs, natToChars n = c :: cs → c ≠ '+' ∧ c ≠ '-' := by
  intro c cs h
  have := natToChars_digits n c (by rw [h]; simp)
  rcases this with ⟨h1, h2⟩
  constructor <;> (intro he; subst he; revert h1 h2; decide)

theorem stripPlus_of_digits {n : Nat} : stripPlus (natToChars n) = natToChars n := by
  cases hc : natToChars n with
  | nil => rfl
  | cons c cs =>
    have hsign := natToChars_head_not_sign n c cs hc
    simp [stripPlus, hsign.1]

theorem parseUIntW_natToChars {w n : Nat} (h : n < 2 ^ w) :
    parseUIntW w (natToChars n) = some n := by
  rw [parseUIntW, stripPlus_of_digits, parseDigits_natToChars]
  simp [h]

theorem parseIntW_natToChars {w : Nat} {n : Nat} (h : n < 2 ^ (w - 1)) :
    parseIntW w (natToChars n) = some (n : Int) := by
  cases hc : natToChars n with
  | nil => exact absurd hc (natToChars_ne_nil n)
  | cons c cs =>
    have hsign := natToChars_head_not_sign n c cs hc
    have hparse : parseDigits (c :: cs) = some n := by
      rw [← hc]; exact parseDigits_natToChars n
    rw [parseIntW]
    have hstrip : stripPlus (c :: cs) = c :: cs := by simp [stripPlus, hsign.1]
    rw [if_neg (by simpa using hsign.2), hstrip, hparse]
    simp [h]


/-! ## Error taxonomy (`error.rs`)

`ProcError` is modeled without the `inner` boxed cause: the source's
`PartialEq for ProcError` compares only `operation`, `file` and `more`,
so the observable identity of an error is exactly this triple. -/

inductive ProcOper
  | Opening
  | Reading
  | Parsing
  | ParsingField
deriving DecidableEq

/-- `ProcOper::is_hard`: `Opening` and `Reading` are soft, the rest hard. -/
def ProcOper.is_hard : ProcOper → Bool
  | .Opening => false
  | .Reading => false
  | .Parsing => true
  | .ParsingField => true

inductive ProcFile
  | ProcDir
  | ProcCmdline
  | ProcCpuinfo
  | ProcMeminfo
  | ProcStat
  | ProcUptime
  | ProcStatus
  | PidDir
  | PidStatus
  | PidStat
  | PidCmdline
deriving DecidableEq

structure ProcError where
  operation : ProcOper
  file : ProcFile
  more : Option String
deriving DecidableEq

/-- `ProcError::is_hard` delegates to the operation. -/
def ProcError.is_hard (e : ProcError) : Bool := e.operation.is_hard

/-! ## Stat record parser (`pid/stat.rs`) -/

inductive PidState
  | Running
  | Sleeping
  | Waiting
  | Zombie
  | Stopped
  | Tracing
  | Dead
  | Wakekill
  | Waking
  | Parked
deriving DecidableEq

/-- `get_procstate`: map a state token to a `PidState`. -/
def get_procstate (s : List Char) : Option PidState :=
  if s = ['R'] then some .Running
  else if s = ['S'] then some .Sleeping
  else if s = ['D'] then some .Waiting
  else if s = ['Z'] then some .Zombie
  else if s = ['T'] then some .Stopped
  else if s = ['t'] then some .Tracing
  else if s = ['X'] then some .Dead
  else if s = ['x'] then some .Dead
  else if s = ['K'] then some .Wakekill
  else if s = ['W'] then some .Waking
  else if s = ['P'] then some .Parked
  else none

/-- The `PidStat` record.  Machine integers (`i32`/`u32`/`i64`/`u64`) are all
embedded as `Int`; the parse functions enforce the per-type ranges. -/
structure PidStat where
  pid : Int
  comm : List Char
  state : PidState
  ppid : Int
  pgrp : Int
  session : Int
  tty_nr : Int
  tpgid : Int
  flags : Int
  minflt : Int
  cminflt : Int
  majflt : Int
  cmajflt : Int
  utime : Int
  stime : Int
  cutime : Int
  cstime : Int
  priority : Int
  nice : Int
  num_threads : Int
  itrealvalue : Int
  starttime : Int
  vsize : Int
  rss : Int
  rsslim : Int
  startcode : Int
  endcode : Int
  startstack : Int
  kstkesp : Int
  kstkeip : Int
  signal : Int
  blocked : Int
  sigignore : Int
  sigcatch : Int
  wchan : Int
  nswap : Int
  cnswap : Int
  exit_signal : Option Int
  processor : Option Int
  rt_priority : Option Int
  policy : Option Int
  delayacct_blkio_ticks : Option Int
  guest_time : Option Int
  cguest_time : Option Int
  start_data : Option Int
  end_data : Option Int
  start_brk : Option Int
  arg_start : Option Int
  arg_end : Option Int
  env_start : Option Int
  env_end : Option Int
  exit_code : Option Int
deriving DecidableEq

/-- Rust `parse` at the numeric type used by a stat field: width `w`,
signedness `sgn`. -/
def parseNum (w : Nat) (sgn : Bool) (s : List Char) : Option Int :=
  if sgn then parseIntW w s else (parseUIntW w s).map Int.ofNat

/-- The `stat_parse_num!` macro: a missing token is a `ParsingField` error
`"missing field"`, an unparsable token a `ParsingField` error
`"parsing number"`. -/
def stat_parse_num (w : Nat) (sgn : Bool) (item : Option (List Char)) :
    Except ProcError Int :=
  match item with
  | none => .error ⟨.ParsingField, .PidStat, some "missing field"⟩
  | some s =>
    match parseNum w sgn s with
    | none => .error ⟨.ParsingField, .PidStat, some "parsing number"⟩
    | some v => .ok v

/-- The `stat_parse_opt_num!` macro: an absent token yields `none`, a present
token is parsed like a mandatory one (its failure is still an error). -/
def stat_parse_opt_num (w : Nat) (sgn : Bool) (item : Option (List Char)) :
    Except ProcError (Option Int) :=
  match item with
  | none => .ok none
  | some s =>
    match stat_parse_num w sgn (some s) with
    | .error e => .error e
    | .ok v => .ok (some v)

/-- The first `split.next()` of the suffix: the state token, mapped through
`get_procstate`, with failure a `Parsing` error `"parsing process state"`. -/
def parseStateTok (item : Option (List Char)) : Except ProcError PidState :=
  match item.bind get_procstate with
  | none => .error ⟨.Parsing, .PidStat, some "parsing process state"⟩
  | some s => .ok s


/-- The body of `PidStat::parse_string` after the parenthesis splitting: `pre`
is the region before the first `(` (the pid is its first space-delimited
token), `mid` the verbatim name, `ts` the space-split tokens of the trimmed
region after the last `)`.  Fields are consumed in the order of the Rust
struct literal. -/
def buildStatToks (pre mid : List Char) (ts : List (List Char)) :
    Except ProcError PidStat :=
  match stat_parse_num 32 true (splitChar ' ' pre).head? with
  | .error e => .error e
  | .ok pid =>
  match parseStateTok (ts.get? 0) with
  | .error e => .error e
  | .ok state =>
  match stat_parse_num 32 true (ts.get? 1) with
  | .error e => .error e
  | .ok ppid =>
  match stat_parse_num 32 true (ts.get? 2) with
  | .error e => .error e
  | .ok pgrp =>
  match stat_parse_num 32 true (ts.get? 3) with
  | .error e => .error e
  | .ok session =>
  match stat_parse_num 32 true (ts.get? 4) with
  | .error e => .error e
  | .ok tty_nr =>
  match stat_parse_num 32 true (ts.get? 5) with
  | .error e => .error e
  | .ok tpgid =>
  match stat_parse_num 32 false (ts.get? 6) with
  | .error e => .error e
  | .ok flags =>
  match stat_parse_num 64 false (ts.get? 7) with
  | .error e => .error e
  | .ok minflt =>
  match stat_parse_num 64 false (ts.get? 8) with
  | .error e => .error e
  | .ok cminflt =>
  match stat_parse_num 64 false (ts.get? 9) with
  | .error e => .error e
  | .ok majflt =>
  match stat_parse_num 64 false (ts.get? 10) with
  | .error e => .error e
  | .ok cmajflt =>
  match stat_parse_num 64 false (ts.get? 11) with
  | .error e => .error e
  | .ok utime =>
  match stat_parse_num 64 false (ts.get? 12) with
  | .error e => .error e
  | .ok stime =>
  match stat_parse_num 64 true (ts.get? 13) with
  | .error e => .error e
  | .ok cutime =>
  match stat_parse_num 64 true (ts.get? 14) with
  | .error e => .error e
  | .ok cstime =>
  match stat_parse_num 64 true (ts.get? 15) with
  | .error e => .error e
  | .ok priority =>
  match stat_parse_num 64 true (ts.get? 16) with
  | .error e => .error e
  | .ok nice =>
  match stat_parse_num 64 true (ts.get? 17) with
  | .error e => .error e
  | .ok num_threads =>
  match stat_parse_num 64 true (ts.get? 18) with
  | .error e => .error e
  | .ok itrealvalue =>
  match stat_parse_num 64 false (ts.get? 19) with
  | .error e => .error e
  | .ok starttime =>
  match stat_parse_num 64 false (ts.get? 20) with
  | .error e => .error e
  | .ok vsize =>
  match stat_parse_num 64 true (ts.get? 21) with
  | .error e => .error e
  | .ok rss =>
  match stat_parse_num 64 false (ts.get? 22) with
  | .error e => .error e
  | .ok rsslim =>
  match stat_parse_num 64 false (ts.get? 23) with
  | .error e => .error e
  | .ok startcode =>
  match stat_parse_num 64 false (ts.get? 24) with
  | .error e => .error e
  | .ok endcode =>
  match stat_parse_num 64 false (ts.get? 25) with
  | .error e => .error e
  | .ok startstack =>
  match stat_parse_num 64 false (ts.get? 26) with
  | .error e => .error e
  | .ok kstkesp =>
  match stat_parse_num 64 false (ts.get? 27) with
  | .error e => .error e
  | .ok kstkeip =>
  match stat_parse_num 64 false (ts.get? 28) with
  | .error e => .error e
  | .ok signal =>
  match stat_parse_num 64 false (ts.get? 29) with
  | .error e => .error e
  | .ok blocked =>
  match stat_parse_num 64 false (ts.get? 30) with
  | .error e => .error e
  | .ok sigignore =>
  match stat_parse_num 64 false (ts.get? 31) with
  | .error e => .error e
  | .ok sigcatch =>
  match stat_parse_num 64 false (ts.get? 32) with
  | .error e => .error e
  | .ok wchan =>
  match stat_parse_num 64 false (ts.get? 33) with
  | .error e => .error e
  | .ok nswap =>
  match stat_parse_num 64 false (ts.get? 34) with
  | .error e => .error e
  | .ok cnswap =>
  match stat_parse_opt_num 32 true (ts.get? 35) with
  | .error e => .error e
  | .ok exit_signal =>
  match stat_parse_opt_num 32 true (ts.get? 36) with
  | .error e => .error e
  | .ok processor =>
  match stat_parse_opt_num 32 false (ts.get? 37) with
  | .error e => .error e
  | .ok rt_priority =>
  match stat_parse_opt_num 32 false (ts.get? 38) with
  | .error e => .error e
  | .ok policy =>
  match stat_parse_opt_num 64 false (ts.get? 39) with
  | .error e => .error e
  | .ok delayacct_blkio_ticks =>
  match stat_parse_opt_num 64 false (ts.get? 40) with
  | .error e => .error e
  | .ok guest_time =>
  match stat_parse_opt_num 64 true (ts.get? 41) with
  | .error e => .error e
  | .ok cguest_time =>
  match stat_parse_opt_num 64 false (ts.get? 42) with
  | .error e => .error e
  | .ok start_data =>
  match stat_parse_opt_num 64 false (ts.get? 43) with
  | .error e => .error e
  | .ok end_data =>
  match stat_parse_opt_num 64 false (ts.get? 44) with
  | .error e => .error e
  | .ok start_brk =>
  match stat_parse_opt_num 64 false (ts.get? 45) with
  | .error e => .error e
  | .ok arg_start =>
  match stat_parse_opt_num 64 false (ts.get? 46) with
  | .error e => .error e
  | .ok arg_end =>
  match stat_parse_opt_num 64 false (ts.get? 47) with
  | .error e => .error e
  | .ok env_start =>
  match stat_parse_opt_num 64 false (ts.get? 48) with
  | .error e => .error e
  | .ok env_end =>
  match stat_parse_opt_num 32 true (ts.get? 49) with
  | .error e => .error e
  | .ok exit_code =>
  .ok {
    pid := pid
    comm := mid
    state := state
    ppid := ppid
    pgrp := pgrp
    session := session
    tty_nr := tty_nr
    tpgid := tpgid
    flags := flags
    minflt := minflt
    cminflt := cminflt
    majflt := majflt
    cmajflt := cmajflt
    utime := utime
    stime := stime
    cutime := cutime
    cstime := cstime
    priority := priority
    nice := nice
    num_threads := num_threads
    itrealvalue := itrealvalue
    starttime := starttime
    vsize := vsize
    rss := rss
    rsslim := rsslim
    startcode := startcode
    endcode := endcode
    startstack := startstack
    kstkesp := kstkesp
    kstkeip := kstkeip
    signal := signal
    blocked := blocked
    sigignore := sigignore
    sigcatch := sigcatch
    wchan := wchan
    nswap := nswap
    cnswap := cnswap
    exit_signal := exit_signal
    processor := processor
    rt_priority := rt_priority
    policy := policy
    delayacct_blkio_ticks := delayacct_blkio_ticks
    guest_time := guest_time
    cguest_time := cguest_time
    start_data := start_data
    end_data := end_data
    start_brk := start_brk
    arg_start := arg_start
    arg_end := arg_end
    env_start := env_start
    env_end := env_end
    exit_code := exit_code
  }

/-- `PidStat::parse_string`: split at the first `(` (its absence is the
`"finding closing paren"` error), split the remainder at the last `)` (its
absence is the `"splitting comm"` error), trim the tail, split it on single
spaces and consume the fields. -/
def PidStat.parse_string (bytes : List Char) : Except ProcError PidStat :=
  match (splitnFirst '(' bytes).2 with
  | none => .error ⟨.Parsing, .PidStat, some "finding closing paren"⟩
  | some b =>
    match (rsplitnFirst ')' b).2 with
    | none => .error ⟨.Parsing, .PidStat, some "splitting comm"⟩
    | some prog_name =>
      buildStatToks (splitnFirst '(' bytes).1 prog_name
        (splitChar ' ' (trim (rsplitnFirst ')' b).1))


/-- A present token that parses at width `w` / signedness `sgn`. -/
def mandTokOk (w : Nat) (sgn : Bool) (item : Option (List Char)) : Bool :=
  match item with
  | none => false
  | some s => (parseNum w sgn s).isSome

/-- An absent token, or a present one that parses. -/
def optTokOk (w : Nat) (sgn : Bool) (item : Option (List Char)) : Bool :=
  match item with
  | none => true
  | some s => (parseNum w sgn s).isSome

/-- All mandatory stat fields (pid, state, and the numeric fields up through
`cnswap`, tokens 1..34) are present and parse at their machine types. -/
def mandValid (pre : List Char) (ts : List (List Char)) : Bool :=
  mandTokOk 32 true (splitChar ' ' pre).head? && (((ts.get? 0).bind get_procstate).isSome && (mandTokOk 32 true (ts.get? 1) && (mandTokOk 32 true (ts.get? 2) && (mandTokOk 32 true (ts.get? 3) && (mandTokOk 32 true (ts.get? 4) && (mandTokOk 32 true (ts.get? 5) && (mandTokOk 32 false (ts.get? 6) && (mandTokOk 64 false (ts.get? 7) && (mandTokOk 64 false (ts.get? 8) && (mandTokOk 64 false (ts.get? 9) && (mandTokOk 64 false (ts.get? 10) && (mandTokOk 64 false (ts.get? 11) && (mandTokOk 64 false (ts.get? 12) && (mandTokOk 64 true (ts.get? 13) && (mandTokOk 64 true (ts.get? 14) && (mandTokOk 64 true (ts.get? 15) && (mandTokOk 64 true (ts.get? 16) && (mandTokOk 64 true (ts.get? 17) && (mandTokOk 64 true (ts.get? 18) && (mandTokOk 64 false (ts.get? 19) && (mandTokOk 64 false (ts.get? 20) && (mandTokOk 64 true (ts.get? 21) && (mandTokOk 64 false (ts.get? 22) && (mandTokOk 64 false (ts.get? 23) && (mandTokOk 64 false (ts.get? 24) && (mandTokOk 64 false (ts.get? 25) && (mandTokOk 64 false (ts.get? 26) && (mandTokOk 64 false (ts.get? 27) && (mandTokOk 64 false (ts.get? 28) && (mandTokOk 64 false (ts.get? 29) && (mandTokOk 64 false (ts.get? 30) && (mandTokOk 64 false (ts.get? 31) && (mandTokOk 64 false (ts.get? 32) && (mandTokOk 64 false (ts.get? 33) && (mandTokOk 64 false (ts.get? 34))))))))))))))))))))))))))))))))))))

/-- Every present optional stat token (tokens 35..49) parses at its machine
type. -/
def optValid (ts : List (List Char)) : Bool :=
  optTokOk 32 true (ts.get? 35) && (optTokOk 32 true (ts.get? 36) && (optTokOk 32 false (ts.get? 37) && (optTokOk 32 false (ts.get? 38) && (optTokOk 64 false (ts.get? 39) && (optTokOk 64 false (ts.get? 40) && (optTokOk 64 true (ts.get? 41) && (optTokOk 64 false (ts.get? 42) && (optTokOk 64 false (ts.get? 43) && (optTokOk 64 false (ts.get? 44) && (optTokOk 64 false (ts.get? 45) && (optTokOk 64 false (ts.get? 46) && (optTokOk 64 false (ts.get? 47) && (optTokOk 64 false (ts.get? 48) && (optTokOk 32 true (ts.get? 49)))))))))))))))


/-! ## Split decomposition and inversion lemmas for the stat parser -/

theorem splitnFirst_append {sep : Char} {pre rest : List Char} (h : sep ∉ pre) :
    splitnFirst sep (pre ++ sep :: rest) = (pre, some rest) := by
  induction pre with
  | nil => simp [splitnFirst]
  | cons c cs ih =>
    simp only [List.mem_cons, not_or] at h
    have hne : ¬ (c = sep) := fun hc => h.1 hc.symm
    simp only [List.cons_append, splitnFirst, hne, if_false, List.append_eq]
    rw [ih h.2]

theorem rsplitnFirst_append {sep : Char} {mid post : List Char} (h : sep ∉ post) :
    rsplitnFirst sep (mid ++ sep :: post) = (post, some mid) := by
  unfold rsplitnFirst
  have hrev : (mid ++ sep :: post).reverse = post.reverse ++ sep :: mid.reverse := by
    simp
  rw [hrev, splitnFirst_append (by simpa using h)]
  simp

theorem stat_parse_num_of_tokOk {w : Nat} {sgn : Bool} {item : Option (List Char)}
    (h : mandTokOk w sgn item = true) : ∃ v, stat_parse_num w sgn item = .ok v := by
  cases item with
  | none => simp [mandTokOk] at h
  | some s =>
    rw [mandTokOk] at h
    cases hp : parseNum w sgn s with
    | none => rw [hp] at h; simp at h
    | some v => exact ⟨v, by rw [stat_parse_num, hp]⟩

theorem parseStateTok_of_isSome {item : Option (List Char)}
    (h : (item.bind get_procstate).isSome = true) :
    ∃ s, parseStateTok item = .ok s := by
  cases hb : item.bind get_procstate with
  | none => rw [hb] at h; simp at h
  | some s => exact ⟨s, by rw [parseStateTok, hb]⟩

theorem mandTokOk_of_ok {w : Nat} {sgn : Bool} {item : Option (List Char)} {v : Int}
    (h : stat_parse_num w sgn item = .ok v) : mandTokOk w sgn item = true := by
  cases item with
  | none => exact absurd h (by simp [stat_parse_num])
  | some s =>
    rw [mandTokOk]
    rw [stat_parse_num] at h
    cases hp : parseNum w sgn s with
    | none => rw [hp] at h; exact absurd h (by simp)
    | some v' => simp [hp]

theorem stateTok_isSome_of_ok {item : Option (List Char)} {s : PidState}
    (h : parseStateTok item = .ok s) : (item.bind get_procstate).isSome = true := by
  rw [parseStateTok] at h
  cases hb : item.bind get_procstate with
  | none => rw [hb] at h; cases h
  | some s' => simp [hb]

theorem optTokOk_of_ok {w : Nat} {sgn : Bool} {item : Option (List Char)} {o : Option Int}
    (h : stat_parse_opt_num w sgn item = .ok o) : optTokOk w sgn item = true := by
  cases item with
  | none => rfl
  | some s =>
    rw [optTokOk]
    rw [stat_parse_opt_num, stat_parse_num] at h
    cases hp : parseNum w sgn s with
    | none => rw [hp] at h; exact absurd h (by simp)
    | some v' => simp [hp]

theorem stat_parse_num_error_hard {w : Nat} {sgn : Bool} {item : Option (List Char)}
    {e : ProcError} (h : stat_parse_num w sgn item = .error e) : e.is_hard = true := by
  cases item with
  | none =>
    rw [stat_parse_num] at h
    cases h
    rfl
  | some s =>
    rw [stat_parse_num] at h
    cases hp : parseNum w sgn s with
    | none => rw [hp] at h; cases h; rfl
    | some v => rw [hp] at h; cases h

theorem stat_parse_opt_num_error_hard {w : Nat} {sgn : Bool} {item : Option (List Char)}
    {e : ProcError} (h : stat_parse_opt_num w sgn item = .error e) : e.is_hard = true := by
  cases item with
  | none => rw [stat_parse_opt_num] at h; cases h
  | some s =>
    rw [stat_parse_opt_num] at h
    cases hs : stat_parse_num w sgn (some s) with
    | error e' =>
      rw [hs] at h
      cases h
      exact stat_parse_num_error_hard hs
    | ok v => rw [hs] at h; cases h

theorem parseStateTok_error_hard {item : Option (List Char)} {e : ProcError}
    (h : parseStateTok item = .error e) : e.is_hard = true := by
  rw [parseStateTok] at h
  cases hb : item.bind get_procstate with
  | none => rw [hb] at h; cases h; rfl
  | some s => rw [hb] at h; cases h

theorem buildStatToks_error_hard {pre mid : List Char} {ts : List (List Char)}
    {e : ProcError} (h : buildStatToks pre mid ts = .error e) : e.is_hard = true := by
  unfold buildStatToks at h
  repeat' split at h
  all_goals cases h
  all_goals
    first
      | exact stat_parse_num_error_hard (by assumption)
      | exact stat_parse_opt_num_error_hard (by assumption)
      | exact parseStateTok_error_hard (by assumption)

theorem buildStatToks_ok_inv {pre mid : List Char} {ts : List (List Char)} {r : PidStat}
    (h : buildStatToks pre mid ts = .ok r) :
    r.comm = mid ∧ stat_parse_num 32 true (splitChar ' ' pre).head? = .ok r.pid ∧
      mandValid pre ts = true ∧ optValid ts = true := by
  unfold buildStatToks at h
  repeat' split at h
  all_goals cases h
  refine ⟨rfl, by assumption, ?_, ?_⟩
  · simp only [mandValid, Bool.and_eq_true]
    repeat' constructor
    all_goals
      first
        | exact mandTokOk_of_ok (by assumption)
        | exact stateTok_isSome_of_ok (by assumption)
  · simp only [optValid, Bool.and_eq_true]
    repeat' constructor
    all_goals exact optTokOk_of_ok (by assumption)


theorem stat_parse_opt_none (w : Nat) (sgn : Bool) :
    stat_parse_opt_num w sgn none = .ok none := rfl

theorem parse_string_decompose {pre mid post : List Char}
    (h1 : '(' ∉ pre) (h2 : ')' ∉ post) :
    PidStat.parse_string (pre ++ '(' :: (mid ++ ')' :: post)) =
      buildStatToks pre mid (splitChar ' ' (trim post)) := by
  unfold PidStat.parse_string
  simp only [splitnFirst_append h1, rsplitnFirst_append h2]

theorem parse_string_error_hard {bytes : List Char} {e : ProcError}
    (h : PidStat.parse_string bytes = .error e) : e.is_hard = true := by
  unfold PidStat.parse_string at h
  repeat' split at h
  all_goals
    first
      | (cases h; rfl)
      | exact buildStatToks_error_hard h

/-- C1 (amended: the pid token is the first *space*-delimited token of the
region before the first `(`, as by Rust `split(' ')`).  For text of the form
`pre ++ "(" ++ mid ++ ")" ++ post` where `pre` holds no `(` and `post` holds
no `)` — i.e. the name is delimited by the first `(` and the *last* `)` —
parsing equals consuming the pid from `pre`, taking `mid` verbatim as the
name, and reading all remaining fields from the space-split of the trimmed
`post`; on success the returned record's name is exactly `mid` and its pid is
parsed from the first space-delimited token of `pre`. -/
theorem stat_outermost_paren_name_recovery (pre mid post : List Char)
    (h1 : '(' ∉ pre) (h2 : ')' ∉ post) :
    PidStat.parse_string (pre ++ '(' :: (mid ++ ')' :: post)) =
      buildStatToks pre mid (splitChar ' ' (trim post)) ∧
    ∀ r, PidStat.parse_string (pre ++ '(' :: (mid ++ ')' :: post)) = .ok r →
      r.comm = mid ∧ stat_parse_num 32 true (splitChar ' ' pre).head? = .ok r.pid := by
  refine ⟨parse_string_decompose h1 h2, ?_⟩
  intro r hr
  rw [parse_string_decompose h1 h2] at hr
  have hi := buildStatToks_ok_inv hr
  exact ⟨hi.1, hi.2.1⟩

/-- C1 counterexample to the claim as stated: a stat record whose pid region
is `"1\t2 "`.  Its first *whitespace*-delimited token is `"1"`, which parses
fine, and every other field is valid; yet parsing fails, because the code
splits the region on single spaces, making the pid token `"1\t2"`. -/
theorem stat_pid_region_tab_counterexample :
    PidStat.parse_string
        ("1\t2 (n) R 1 2 3 4 5 6 7 8 9 10 11 12 13 14 15 16 17 18 19 20 21 22 23 24 25 26 27 28 29 30 31 32 33 34".toList) =
      .error ⟨.ParsingField, .PidStat, some "parsing number"⟩ ∧
    (splitWh ("1\t2 ".toList)).head? = some ['1'] ∧
    parseNum 32 true ['1'] = some 1 := by
  refine ⟨?_, ?_, ?_⟩ <;> decide

/-- C1 witness: the amended theorem applied at a concrete record whose name
contains spaces and parentheses. -/
theorem stat_outermost_paren_name_recovery_witness :
    PidStat.parse_string
        ("14557 ".toList ++ '(' :: ("psq (x) y".toList ++ ')' ::
          " R 1 2 3 4 5 6 7 8 9 10 11 12 13 14 15 16 17 18 19 20 21 22 23 24 25 26 27 28 29 30 31 32 33 34".toList)) =
      buildStatToks ("14557 ".toList) ("psq (x) y".toList)
        (splitChar ' ' (trim (" R 1 2 3 4 5 6 7 8 9 10 11 12 13 14 15 16 17 18 19 20 21 22 23 24 25 26 27 28 29 30 31 32 33 34".toList))) ∧
    ∃ r, PidStat.parse_string
        ("14557 ".toList ++ '(' :: ("psq (x) y".toList ++ ')' ::
          " R 1 2 3 4 5 6 7 8 9 10 11 12 13 14 15 16 17 18 19 20 21 22 23 24 25 26 27 28 29 30 31 32 33 34".toList)) = .ok r ∧
      r.comm = "psq (x) y".toList ∧ r.pid = 14557 := by
  have h := stat_outermost_paren_name_recovery ("14557 ".toList) ("psq (x) y".toList)
    (" R 1 2 3 4 5 6 7 8 9 10 11 12 13 14 15 16 17 18 19 20 21 22 23 24 25 26 27 28 29 30 31 32 33 34".toList)
    (by decide) (by decide)
  refine ⟨h.1, ?_⟩
  cases hp : PidStat.parse_string
      ("14557 ".toList ++ '(' :: ("psq (x) y".toList ++ ')' ::
        " R 1 2 3 4 5 6 7 8 9 10 11 12 13 14 15 16 17 18 19 20 21 22 23 24 25 26 27 28 29 30 31 32 33 34".toList)) with
  | error e =>
    have hok : isOkE (PidStat.parse_string
        ("14557 ".toList ++ '(' :: ("psq (x) y".toList ++ ')' ::
          " R 1 2 3 4 5 6 7 8 9 10 11 12 13 14 15 16 17 18 19 20 21 22 23 24 25 26 27 28 29 30 31 32 33 34".toList))) = true := by
      rw [h.1]; decide
    rw [hp] at hok
    simp [isOkE] at hok
  | ok r =>
    have hc := h.2 r hp
    refine ⟨r, rfl, hc.1, ?_⟩
    have hpid := hc.2
    have hconc : stat_parse_num 32 true (splitChar ' ' ("14557 ".toList)).head? =
        .ok (14557 : Int) := by decide
    have heq := hconc.symm.trans hpid
    injection heq with heq'
    exact heq'.symm

/-- C4: (i) if the suffix region after the name consists of exactly the 35
mandatory tokens (state through `cnswap`) and they, with the pid token, all
parse, parsing succeeds and every optional field after `cnswap` is `none`;
(ii) success requires every mandatory and every present optional token to
parse; (iii) every parse failure of the stat parser is a hard error. -/
theorem stat_optional_suffix_policy (pre mid post : List Char)
    (h1 : '(' ∉ pre) (h2 : ')' ∉ post) :
    ((splitChar ' ' (trim post)).length = 35 →
      mandValid pre (splitChar ' ' (trim post)) = true →
      ∃ r, PidStat.parse_string (pre ++ '(' :: (mid ++ ')' :: post)) = .ok r ∧
        r.exit_signal = none ∧
        r.processor = none ∧
        r.rt_priority = none ∧
        r.policy = none ∧
        r.delayacct_blkio_ticks = none ∧
        r.guest_time = none ∧
        r.cguest_time = none ∧
        r.start_data = none ∧
        r.end_data = none ∧
        r.start_brk = none ∧
        r.arg_start = none ∧
        r.arg_end = none ∧
        r.env_start = none ∧
        r.env_end = none ∧
        r.exit_code = none) ∧
    (∀ r, PidStat.parse_string (pre ++ '(' :: (mid ++ ')' :: post)) = .ok r →
      mandValid pre (splitChar ' ' (trim post)) = true ∧
      optValid (splitChar ' ' (trim post)) = true) ∧
    (∀ bytes e, PidStat.parse_string bytes = .error e → e.is_hard = true) := by
  refine ⟨?_, ?_, fun bytes e he => parse_string_error_hard he⟩
  · intro hlen hmand
    rw [parse_string_decompose h1 h2]
    simp only [mandValid, Bool.and_eq_true] at hmand
    obtain ⟨hpid, hstate, hm1, hm2, hm3, hm4, hm5, hm6, hm7, hm8, hm9, hm10, hm11, hm12, hm13, hm14, hm15, hm16, hm17, hm18, hm19, hm20, hm21, hm22, hm23, hm24, hm25, hm26, hm27, hm28, hm29, hm30, hm31, hm32, hm33, hm34⟩ := hmand
    obtain ⟨vpid, hvpid⟩ := stat_parse_num_of_tokOk hpid
    obtain ⟨vst, hvst⟩ := parseStateTok_of_isSome hstate
    obtain ⟨v1, hv1⟩ := stat_parse_num_of_tokOk hm1
    obtain ⟨v2, hv2⟩ := stat_parse_num_of_tokOk hm2
    obtain ⟨v3, hv3⟩ := stat_parse_num_of_tokOk hm3
    obtain ⟨v4, hv4⟩ := stat_parse_num_of_tokOk hm4
    obtain ⟨v5, hv5⟩ := stat_parse_num_of_tokOk hm5
    obtain ⟨v6, hv6⟩ := stat_parse_num_of_tokOk hm6
    obtain ⟨v7, hv7⟩ := stat_parse_num_of_tokOk hm7
    obtain ⟨v8, hv8⟩ := stat_parse_num_of_tokOk hm8
    obtain ⟨v9, hv9⟩ := stat_parse_num_of_tokOk hm9
    obtain ⟨v10, hv10⟩ := stat_parse_num_of_tokOk hm10
    obtain ⟨v11, hv11⟩ := stat_parse_num_of_tokOk hm11
    obtain ⟨v12, hv12⟩ := stat_parse_num_of_tokOk hm12
    obtain ⟨v13, hv13⟩ := stat_parse_num_of_tokOk hm13
    obtain ⟨v14, hv14⟩ := stat_parse_num_of_tokOk hm14
    obtain ⟨v15, hv15⟩ := stat_parse_num_of_tokOk hm15
    obtain ⟨v16, hv16⟩ := stat_parse_num_of_tokOk hm16
    obtain ⟨v17, hv17⟩ := stat_parse_num_of_tokOk hm17
    obtain ⟨v18, hv18⟩ := stat_parse_num_of_tokOk hm18
    obtain ⟨v19, hv19⟩ := stat_parse_num_of_tokOk hm19
    obtain ⟨v20, hv20⟩ := stat_parse_num_of_tokOk hm20
    obtain ⟨v21, hv21⟩ := stat_parse_num_of_tokOk hm21
    obtain ⟨v22, hv22⟩ := stat_parse_num_of_tokOk hm22
    obtain ⟨v23, hv23⟩ := stat_parse_num_of_tokOk hm23
    obtain ⟨v24, hv24⟩ := stat_parse_num_of_tokOk hm24
    obtain ⟨v25, hv25⟩ := stat_parse_num_of_tokOk hm25
    obtain ⟨v26, hv26⟩ := stat_parse_num_of_tokOk hm26
    obtain ⟨v27, hv27⟩ := stat_parse_num_of_tokOk hm27
    obtain ⟨v28, hv28⟩ := stat_parse_num_of_tokOk hm28
    obtain ⟨v29, hv29⟩ := stat_parse_num_of_tokOk hm29
    obtain ⟨v30, hv30⟩ := stat_parse_num_of_tokOk hm30
    obtain ⟨v31, hv31⟩ := stat_parse_num_of_tokOk hm31
    obtain ⟨v32, hv32⟩ := stat_parse_num_of_tokOk hm32
    obtain ⟨v33, hv33⟩ := stat_parse_num_of_tokOk hm33
    obtain ⟨v34, hv34⟩ := stat_parse_num_of_tokOk hm34
    have hn35 : (splitChar ' ' (trim post)).get? 35 = none := by
      rw [List.get?_eq_none]; omega
    have hn36 : (splitChar ' ' (trim post)).get? 36 = none := by
      rw [List.get?_eq_none]; omega
    have hn37 : (splitChar ' ' (trim post)).get? 37 = none := by
      rw [List.get?_eq_none]; omega
    have hn38 : (splitChar ' ' (trim post)).get? 38 = none := by
      rw [List.get?_eq_none]; omega
    have hn39 : (splitChar ' ' (trim post)).get? 39 = none := by
      rw [List.get?_eq_none]; omega
    have hn40 : (splitChar ' ' (trim post)).get? 40 = none := by
      rw [List.get?_eq_none]; omega
    have hn41 : (splitChar ' ' (trim post)).get? 41 = none := by
      rw [List.get?_eq_none]; omega
    have hn42 : (splitChar ' ' (trim post)).get? 42 = none := by
      rw [List.get?_eq_none]; omega
    have hn43 : (splitChar ' ' (trim post)).get? 43 = none := by
      rw [List.get?_eq_none]; omega
    have hn44 : (splitChar ' ' (trim post)).get? 44 = none := by
      rw [List.get?_eq_none]; omega
    have hn45 : (splitChar ' ' (trim post)).get? 45 = none := by
      rw [List.get?_eq_none]; omega
    have hn46 : (splitChar ' ' (trim post)).get? 46 = none := by
      rw [List.get?_eq_none]; omega
    have hn47 : (splitChar ' ' (trim post)).get? 47 = none := by
      rw [List.get?_eq_none]; omega
    have hn48 : (splitChar ' ' (trim post)).get? 48 = none := by
      rw [List.get?_eq_none]; omega
    have hn49 : (splitChar ' ' (trim post)).get? 49 = none := by
      rw [List.get?_eq_none]; omega
    have hok : buildStatToks pre mid (splitChar ' ' (trim post)) = .ok
        { pid := vpid, comm := mid, state := vst,
          ppid := v1, pgrp := v2, session := v3, tty_nr := v4, tpgid := v5, flags := v6, minflt := v7, cminflt := v8, majflt := v9, cmajflt := v10, utime := v11, stime := v12, cutime := v13, cstime := v14, priority := v15, nice := v16, num_threads := v17, itrealvalue := v18, starttime := v19, vsize := v20, rss := v21, rsslim := v22, startcode := v23, endcode := v24, startstack := v25, kstkesp := v26, kstkeip := v27, signal := v28, blocked := v29, sigignore := v30, sigcatch := v31, wchan := v32, nswap := v33, cnswap := v34,
          exit_signal := none, processor := none, rt_priority := none, policy := none, delayacct_blkio_ticks := none, guest_time := none, cguest_time := none, start_data := none, end_data := none, start_brk := none, arg_start := none, arg_end := none, env_start := none, env_end := none, exit_code := none } := by
      simp only [buildStatToks, hvpid, hvst, hv1, hv2, hv3, hv4, hv5, hv6, hv7, hv8, hv9, hv10, hv11, hv12, hv13, hv14, hv15, hv16, hv17, hv18, hv19, hv20, hv21, hv22, hv23, hv24, hv25, hv26, hv27, hv28, hv29, hv30, hv31, hv32, hv33, hv34,
        hn35, hn36, hn37, hn38, hn39, hn40, hn41, hn42, hn43, hn44, hn45, hn46, hn47, hn48, hn49, stat_parse_opt_none]
    exact ⟨_, hok, rfl, rfl, rfl, rfl, rfl, rfl, rfl, rfl, rfl, rfl, rfl, rfl, rfl, rfl, rfl⟩
  · intro r hr
    rw [parse_string_decompose h1 h2] at hr
    have hi := buildStatToks_ok_inv hr
    exact ⟨hi.2.2.1, hi.2.2.2⟩

/-- C4 witness: a concrete stat record truncated right after `cnswap`
parses, with all optional fields unset. -/
theorem stat_optional_suffix_policy_witness :
    ∃ r, PidStat.parse_string
        ("7 ".toList ++ '(' :: ("x".toList ++ ')' ::
          " R 1 2 3 4 5 6 7 8 9 10 11 12 13 14 15 16 17 18 19 20 21 22 23 24 25 26 27 28 29 30 31 32 33 34".toList)) = .ok r ∧
      r.exit_signal = none ∧
      r.processor = none ∧
      r.rt_priority = none ∧
      r.policy = none ∧
      r.delayacct_blkio_ticks = none ∧
      r.guest_time = none ∧
      r.cguest_time = none ∧
      r.start_data = none ∧
      r.end_data = none ∧
      r.start_brk = none ∧
      r.arg_start = none ∧
      r.arg_end = none ∧
      r.env_start = none ∧
      r.env_end = none ∧
      r.exit_code = none :=
  (stat_optional_suffix_policy ("7 ".toList) ("x".toList)
    (" R 1 2 3 4 5 6 7 8 9 10 11 12 13 14 15 16 17 18 19 20 21 22 23 24 25 26 27 28 29 30 31 32 33 34".toList)
    (by decide) (by decide)).1 (by decide) (by decide)


/-! ## Status record parser (`pid/status.rs`) -/

/-- The `PidStatus` record.  `TaskId` fields (`i32`) are `Int`, `u32` and
`MemSize` (`u64`) fields are `Nat`; uids/gids are the four-tuples
real/effective/saved/filesystem. -/
structure PidStatus where
  name : List Char
  tgid : Int
  pid : Int
  ppid : Int
  tracerpid : Int
  uid : Nat × Nat × Nat × Nat
  gid : Nat × Nat × Nat × Nat
  fdsize : Nat
  vmpeak : Option Nat
  vmsize : Option Nat
  vmlck : Option Nat
  vmpin : Option Nat
  vmhwm : Option Nat
  vmrss : Option Nat
  vmdata : Option Nat
  vmstk : Option Nat
  vmexe : Option Nat
  vmlib : Option Nat
  vmpte : Option Nat
  vmpmd : Option Nat
  vmswap : Option Nat
  threads : Nat
deriving DecidableEq

/-- `parse_uids`: split on whitespace, drop empties, parse each as `u32`,
require exactly four.  (The distinct internal error causes are erased by the
caller's `parse!` wrapper, whose observable error is the key name, so the
result is an `Option`.) -/
def parse_uids (s : List Char) : Option (Nat × Nat × Nat × Nat) :=
  match (splitWh s).mapM (fun t => parseUIntW 32 t) with
  | none => none
  | some l =>
    match l with
    | [a, b, c, d] => some (a, b, c, d)
    | _ => none

/-- `parse_mem`: strip every trailing `" kB"`, parse as `u64`, multiply by
1024 (with `u64` wrap-around). -/
def parse_mem (s : List Char) : Option Nat :=
  (parseUIntW 64 (trimRightMatches (" kB".toList) s)).map
    (fun n => n * 1024 % 2 ^ 64)

/-- Accumulator of the per-key local variables of `parse_string`, all
initially unset. -/
structure StatusAcc where
  name : Option (List Char) := none
  tgid : Option Int := none
  pid : Option Int := none
  ppid : Option Int := none
  tracerpid : Option Int := none
  uid : Option (Nat × Nat × Nat × Nat) := none
  gid : Option (Nat × Nat × Nat × Nat) := none
  fdsize : Option Nat := none
  vmpeak : Option Nat := none
  vmsize : Option Nat := none
  vmlck : Option Nat := none
  vmpin : Option Nat := none
  vmhwm : Option Nat := none
  vmrss : Option Nat := none
  vmdata : Option Nat := none
  vmstk : Option Nat := none
  vmexe : Option Nat := none
  vmlib : Option Nat := none
  vmpte : Option Nat := none
  vmpmd : Option Nat := none
  vmswap : Option Nat := none
  threads : Option Nat := none
deriving DecidableEq

/-- One recognized-key arm of the `match`: parse the value, a failure being a
`ParsingField` error naming the key (the `parse!` macro), a success setting
the key's accumulator slot. -/
def setArm {CellT : Type} (parse : List Char → Option CellT) (key : String)
    (set : StatusAcc → CellT → StatusAcc) (acc : StatusAcc) (value : List Char) :
    Except ProcError StatusAcc :=
  match parse value with
  | none => .error ⟨.ParsingField, .PidStatus, some key⟩
  | some x => .ok (set acc x)

/-- The `match key` dispatch of `PidStatus::parse_string`: unrecognized keys
are ignored. -/
def dispatch (acc : StatusAcc) (key value : List Char) : Except ProcError StatusAcc :=
  if key = "Name".toList then
    setArm (fun s => some s) "Name" (fun a x => { a with name := some x }) acc value
  else if key = "Tgid".toList then
    setArm (parseIntW 32) "Tgid" (fun a x => { a with tgid := some x }) acc value
  else if key = "Pid".toList then
    setArm (parseIntW 32) "Pid" (fun a x => { a with pid := some x }) acc value
  else if key = "PPid".toList then
    setArm (parseIntW 32) "PPid" (fun a x => { a with ppid := some x }) acc value
  else if key = "TracerPid".toList then
    setArm (parseIntW 32) "TracerPid" (fun a x => { a with tracerpid := some x }) acc value
  else if key = "Uid".toList then
    setArm (parse_uids) "Uid" (fun a x => { a with uid := some x }) acc value
  else if key = "Gid".toList then
    setArm (parse_uids) "Gid" (fun a x => { a with gid := some x }) acc value
  else if key = "FDSize".toList then
    setArm (parseUIntW 32) "FDSize" (fun a x => { a with fdsize := some x }) acc value
  else if key = "VmPeak".toList then
    setArm (parse_mem) "VmPeak" (fun a x => { a with vmpeak := some x }) acc value
  else if key = "VmSize".toList then
    setArm (parse_mem) "VmSize" (fun a x => { a with vmsize := some x }) acc value
  else if key = "VmLck".toList then
    setArm (parse_mem) "VmLck" (fun a x => { a with vmlck := some x }) acc value
  else if key = "VmPin".toList then
    setArm (parse_mem) "VmPin" (fun a x => { a with vmpin := some x }) acc value
  else if key = "VmHWM".toList then
    setArm (parse_mem) "VmHWM" (fun a x => { a with vmhwm := some x }) acc value
  else if key = "VmRSS".toList then
    setArm (parse_mem) "VmRSS" (fun a x => { a with vmrss := some x }) acc value
  else if key = "VmData".toList then
    setArm (parse_mem) "VmData" (fun a x => { a with vmdata := some x }) acc value
  else if key = "VmStk".toList then
    setArm (parse_mem) "VmStk" (fun a x => { a with vmstk := some x }) acc value
  else if key = "VmExe".toList then
    setArm (parse_mem) "VmExe" (fun a x => { a with vmexe := some x }) acc value
  else if key = "VmLib".toList then
    setArm (parse_mem) "VmLib" (fun a x => { a with vmlib := some x }) acc value
  else if key = "VmPTE".toList then
    setArm (parse_mem) "VmPTE" (fun a x => { a with vmpte := some x }) acc value
  else if key = "VmPMD".toList then
    setArm (parse_mem) "VmPMD" (fun a x => { a with vmpmd := some x }) acc value
  else if key = "VmSwap".toList then
    setArm (parse_mem) "VmSwap" (fun a x => { a with vmswap := some x }) acc value
  else if key = "Threads".toList then
    setArm (parseUIntW 32) "Threads" (fun a x => { a with threads := some x }) acc value
  else .ok acc

/-- One line of `PidStatus::parse_string`: find the first `:` (a hard
`ParsingField` error `"Line missing colon"` if absent), trim the text before
it as the key and the text after it as the value, and dispatch. -/
def processLine (acc : StatusAcc) (line : List Char) : Except ProcError StatusAcc :=
  match findIdxA (fun c => c = ':') line with
  | none => .error ⟨.ParsingField, .PidStatus, some "Line missing colon"⟩
  | some i => dispatch acc (trim (line.take i)) (trim ((line.drop i).drop 1))

/-- The `for line in lines` loop: a line-read error propagates, then each line
is processed in order. -/
def statusFold (acc : StatusAcc) :
    List (Except ProcError (List Char)) → Except ProcError StatusAcc
  | [] => .ok acc
  | .error e :: _ => .error e
  | .ok line :: ls =>
    match processLine acc line with
    | .error e => .error e
    | .ok acc' => statusFold acc' ls

/-- The final struct literal of `PidStatus::parse_string`: each mandatory
field is unwrapped (`unwrap!`), its absence being a `ParsingField` error
`"missing <key>"`; the `Vm*` slots pass through unchanged.  The fields are
evaluated in the order of the Rust struct literal, so `threads` is checked
after the others. -/
def statusFinish (acc : StatusAcc) : Except ProcError PidStatus :=
  match acc.name with
  | none => .error ⟨.ParsingField, .PidStatus, some "missing Name"⟩
  | some name =>
  match acc.tgid with
  | none => .error ⟨.ParsingField, .PidStatus, some "missing Tgid"⟩
  | some tgid =>
  match acc.pid with
  | none => .error ⟨.ParsingField, .PidStatus, some "missing Pid"⟩
  | some pid =>
  match acc.ppid with
  | none => .error ⟨.ParsingField, .PidStatus, some "missing PPid"⟩
  | some ppid =>
  match acc.tracerpid with
  | none => .error ⟨.ParsingField, .PidStatus, some "missing TracerPid"⟩
  | some tracerpid =>
  match acc.uid with
  | none => .error ⟨.ParsingField, .PidStatus, some "missing Uid"⟩
  | some uid =>
  match acc.gid with
  | none => .error ⟨.ParsingField, .PidStatus, some "missing Gid"⟩
  | some gid =>
  match acc.fdsize with
  | none => .error ⟨.ParsingField, .PidStatus, some "missing FDSize"⟩
  | some fdsize =>
  match acc.threads with
  | none => .error ⟨.ParsingField, .PidStatus, some "missing Threads"⟩
  | some threads =>
  .ok { name := name, tgid := tgid, pid := pid, ppid := ppid,
        tracerpid := tracerpid, uid := uid, gid := gid, fdsize := fdsize,
        vmpeak := acc.vmpeak, vmsize := acc.vmsize, vmlck := acc.vmlck, vmpin := acc.vmpin, vmhwm := acc.vmhwm, vmrss := acc.vmrss, vmdata := acc.vmdata, vmstk := acc.vmstk, vmexe := acc.vmexe, vmlib := acc.vmlib, vmpte := acc.vmpte, vmpmd := acc.vmpmd, vmswap := acc.vmswap,
        threads := threads }

/-- `PidStatus::parse_string` over an iterator of line-read results. -/
def PidStatus.parse_string (lines : List (Except ProcError (List Char))) :
    Except ProcError PidStatus :=
  match statusFold {} lines with
  | .error e => .error e
  | .ok acc => statusFinish acc

/-- A status line `<key>:<value>`. -/
def mkLine (k : String) (v : List Char) : List Char :=
  k.toList ++ ':' :: v

theorem processLine_name_ok (v : List Char) (acc : StatusAcc) :
    processLine acc (mkLine "Name" v) = .ok { acc with name := some (trim v) } := rfl

theorem processLine_tgid_ok (v : List Char) (x : Int) (h : parseIntW 32 (trim v) = some x) (acc : StatusAcc) :
    processLine acc (mkLine "Tgid" v) = .ok { acc with tgid := some x } := by
  have hc : processLine acc (mkLine "Tgid" v) =
      setArm (parseIntW 32) "Tgid" (fun a y => { a with tgid := some y }) acc (trim v) := rfl
  rw [hc, setArm, h]

theorem processLine_pid_ok (v : List Char) (x : Int) (h : parseIntW 32 (trim v) = some x) (acc : StatusAcc) :
    processLine acc (mkLine "Pid" v) = .ok { acc with pid := some x } := by
  have hc : processLine acc (mkLine "Pid" v) =
      setArm (parseIntW 32) "Pid" (fun a y => { a with pid := some y }) acc (trim v) := rfl
  rw [hc, setArm, h]

theorem processLine_ppid_ok (v : List Char) (x : Int) (h : parseIntW 32 (trim v) = some x) (acc : StatusAcc) :
    processLine acc (mkLine "PPid" v) = .ok { acc with ppid := some x } := by
  have hc : processLine acc (mkLine "PPid" v) =
      setArm (parseIntW 32) "PPid" (fun a y => { a with ppid := some y }) acc (trim v) := rfl
  rw [hc, setArm, h]

theorem processLine_tracerpid_ok (v : List Char) (x : Int) (h : parseIntW 32 (trim v) = some x) (acc : StatusAcc) :
    processLine acc (mkLine "TracerPid" v) = .ok { acc with tracerpid := some x } := by
  have hc : processLine acc (mkLine "TracerPid" v) =
      setArm (parseIntW 32) "TracerPid" (fun a y => { a with tracerpid := some y }) acc (trim v) := rfl
  rw [hc, setArm, h]

theorem processLine_uid_ok (v : List Char) (x : Nat × Nat × Nat × Nat) (h : parse_uids (trim v) = some x) (acc : StatusAcc) :
    processLine acc (mkLine "Uid" v) = .ok { acc with uid := some x } := by
  have hc : processLine acc (mkLine "Uid" v) =
      setArm (parse_uids) "Uid" (fun a y => { a with uid := some y }) acc (trim v) := rfl
  rw [hc, setArm, h]

theorem processLine_gid_ok (v : List Char) (x : Nat × Nat × Nat × Nat) (h : parse_uids (trim v) = some x) (acc : StatusAcc) :
    processLine acc (mkLine "Gid" v) = .ok { acc with gid := some x } := by
  have hc : processLine acc (mkLine "Gid" v) =
      setArm (parse_uids) "Gid" (fun a y => { a with gid := some y }) acc (trim v) := rfl
  rw [hc, setArm, h]

theorem processLine_fdsize_ok (v : List Char) (x : Nat) (h : parseUIntW 32 (trim v) = some x) (acc : StatusAcc) :
    processLine acc (mkLine "FDSize" v) = .ok { acc with fdsize := some x } := by
  have hc : processLine acc (mkLine "FDSize" v) =
      setArm (parseUIntW 32) "FDSize" (fun a y => { a with fdsize := some y }) acc (trim v) := rfl
  rw [hc, setArm, h]

theorem processLine_vmpeak_ok (v : List Char) (x : Nat) (h : parse_mem (trim v) = some x) (acc : StatusAcc) :
    processLine acc (mkLine "VmPeak" v) = .ok { acc with vmpeak := some x } := by
  have hc : processLine acc (mkLine "VmPeak" v) =
      setArm (parse_mem) "VmPeak" (fun a y => { a with vmpeak := some y }) acc (trim v) := rfl
  rw [hc, setArm, h]

theorem processLine_vmsize_ok (v : List Char) (x : Nat) (h : parse_mem (trim v) = some x) (acc : StatusAcc) :
    processLine acc (mkLine "VmSize" v) = .ok { acc with vmsize := some x } := by
  have hc : processLine acc (mkLine "VmSize" v) =
      setArm (parse_mem) "VmSize" (fun a y => { a with vmsize := some y }) acc (trim v) := rfl
  rw [hc, setArm, h]

theorem processLine_vmlck_ok (v : List Char) (x : Nat) (h : parse_mem (trim v) = some x) (acc : StatusAcc) :
    processLine acc (mkLine "VmLck" v) = .ok { acc with vmlck := some x } := by
  have hc : processLine acc (mkLine "VmLck" v) =
      setArm (parse_mem) "VmLck" (fun a y => { a with vmlck := some y }) acc (trim v) := rfl
  rw [hc, setArm, h]

theorem processLine_vmpin_ok (v : List Char) (x : Nat) (h : parse_mem (trim v) = some x) (acc : StatusAcc) :
    processLine acc (mkLine "VmPin" v) = .ok { acc with vmpin := some x } := by
  have hc : processLine acc (mkLine "VmPin" v) =
      setArm (parse_mem) "VmPin" (fun a y => { a with vmpin := some y }) acc (trim v) := rfl
  rw [hc, setArm, h]

theorem processLine_vmhwm_ok (v : List Char) (x : Nat) (h : parse_mem (trim v) = some x) (acc : StatusAcc) :
    processLine acc (mkLine "VmHWM" v) = .ok { acc with vmhwm := some x } := by
  have hc : processLine acc (mkLine "VmHWM" v) =
      setArm (parse_mem) "VmHWM" (fun a y => { a with vmhwm := some y }) acc (trim v) := rfl
  rw [hc, setArm, h]

theorem processLine_vmrss_ok (v : List Char) (x : Nat) (h : parse_mem (trim v) = some x) (acc : StatusAcc) :
    processLine acc (mkLine "VmRSS" v) = .ok { acc with vmrss := some x } := by
  have hc : processLine acc (mkLine "VmRSS" v) =
      setArm (parse_mem) "VmRSS" (fun a y => { a with vmrss := some y }) acc (trim v) := rfl
  rw [hc, setArm, h]

theorem processLine_vmdata_ok (v : List Char) (x : Nat) (h : parse_mem (trim v) = some x) (acc : StatusAcc) :
    processLine acc (mkLine "VmData" v) = .ok { acc with vmdata := some x } := by
  have hc : processLine acc (mkLine "VmData" v) =
      setArm (parse_mem) "VmData" (fun a y => { a with vmdata := some y }) acc (trim v) := rfl
  rw [hc, setArm, h]

theorem processLine_vmstk_ok (v : List Char) (x : Nat) (h : parse_mem (trim v) = some x) (acc : StatusAcc) :
    processLine acc (mkLine "VmStk" v) = .ok { acc with vmstk := some x } := by
  have hc : processLine acc (mkLine "VmStk" v) =
      setArm (parse_mem) "VmStk" (fun a y => { a with vmstk := some y }) acc (trim v) := rfl
  rw [hc, setArm, h]

theorem processLine_vmexe_ok (v : List Char) (x : Nat) (h : parse_mem (trim v) = some x) (acc : StatusAcc) :
    processLine acc (mkLine "VmExe" v) = .ok { acc with vmexe := some x } := by
  have hc : processLine acc (mkLine "VmExe" v) =
      setArm (parse_mem) "VmExe" (fun a y => { a with vmexe := some y }) acc (trim v) := rfl
  rw [hc, setArm, h]

theorem processLine_vmlib_ok (v : List Char) (x : Nat) (h : parse_mem (trim v) = some x) (acc : StatusAcc) :
    processLine acc (mkLine "VmLib" v) = .ok { acc with vmlib := some x } := by
  have hc : processLine acc (mkLine "VmLib" v) =
      setArm (parse_mem) "VmLib" (fun a y => { a with vmlib := some y }) acc (trim v) := rfl
  rw [hc, setArm, h]

theorem processLine_vmpte_ok (v : List Char) (x : Nat) (h : parse_mem (trim v) = some x) (acc : StatusAcc) :
    processLine acc (mkLine "VmPTE" v) = .ok { acc with vmpte := some x } := by
  have hc : processLine acc (mkLine "VmPTE" v) =
      setArm (parse_mem) "VmPTE" (fun a y => { a with vmpte := some y }) acc (trim v) := rfl
  rw [hc, setArm, h]

theorem processLine_vmpmd_ok (v : List Char) (x : Nat) (h : parse_mem (trim v) = some x) (acc : StatusAcc) :
    processLine acc (mkLine "VmPMD" v) = .ok { acc with vmpmd := some x } := by
  have hc : processLine acc (mkLine "VmPMD" v) =
      setArm (parse_mem) "VmPMD" (fun a y => { a with vmpmd := some y }) acc (trim v) := rfl
  rw [hc, setArm, h]

theorem processLine_vmswap_ok (v : List Char) (x : Nat) (h : parse_mem (trim v) = some x) (acc : StatusAcc) :
    processLine acc (mkLine "VmSwap" v) = .ok { acc with vmswap := some x } := by
  have hc : processLine acc (mkLine "VmSwap" v) =
      setArm (parse_mem) "VmSwap" (fun a y => { a with vmswap := some y }) acc (trim v) := rfl
  rw [hc, setArm, h]

theorem processLine_threads_ok (v : List Char) (x : Nat) (h : parseUIntW 32 (trim v) = some x) (acc : StatusAcc) :
    processLine acc (mkLine "Threads" v) = .ok { acc with threads := some x } := by
  have hc : processLine acc (mkLine "Threads" v) =
      setArm (parseUIntW 32) "Threads" (fun a y => { a with threads := some y }) acc (trim v) := rfl
  rw [hc, setArm, h]



/-- The nine status lines for the mandatory keys, in the order their absence
is checked by the final struct literal. -/
def mandStatusLines (nameTok tgidTok pidTok ppidTok tracerTok uidTok gidTok
    fdTok thrTok : List Char) : List (Except ProcError (List Char)) :=
  [.ok (mkLine "Name" nameTok), .ok (mkLine "Tgid" tgidTok),
   .ok (mkLine "Pid" pidTok), .ok (mkLine "PPid" ppidTok),
   .ok (mkLine "TracerPid" tracerTok), .ok (mkLine "Uid" uidTok),
   .ok (mkLine "Gid" gidTok), .ok (mkLine "FDSize" fdTok),
   .ok (mkLine "Threads" thrTok)]

/-- The nine mandatory status keys, in check order. -/
def statusKeyName : Fin 9 → String := fun i =>
  match i.val with
  | 0 => "Name"
  | 1 => "Tgid"
  | 2 => "Pid"
  | 3 => "PPid"
  | 4 => "TracerPid"
  | 5 => "Uid"
  | 6 => "Gid"
  | 7 => "FDSize"
  | _ => "Threads"

/-- C3 counterexample to the claim as stated: a status record supplying valid
values for exactly the eight keys the claim lists as mandatory does not
parse; the code also requires `TracerPid` and fails naming it. -/
theorem status_eight_keys_counterexample :
    PidStatus.parse_string
        [.ok (mkLine "Name" (" bash".toList)), .ok (mkLine "Tgid" (" 1".toList)),
         .ok (mkLine "Pid" (" 1".toList)), .ok (mkLine "PPid" (" 0".toList)),
         .ok (mkLine "Uid" (" 0 0 0 0".toList)), .ok (mkLine "Gid" (" 0 0 0 0".toList)),
         .ok (mkLine "FDSize" (" 4".toList)), .ok (mkLine "Threads" (" 1".toList))] =
      .error ⟨.ParsingField, .PidStatus, some "missing TracerPid"⟩ := by decide

/-- C3 (amended: the mandatory key set also contains `TracerPid`, nine keys
in all).  (i) A status record supplying valid values for exactly the nine
mandatory keys parses, with every `Vm*` field unset; (ii) dropping the line
of any one of the nine keys makes parsing fail with a hard `ParsingField`
error naming exactly that key. -/
theorem status_mandatory_nine (nameTok tgidTok pidTok ppidTok tracerTok uidTok
    gidTok fdTok thrTok : List Char) (tg pd pp tr : Int)
    (u g : Nat × Nat × Nat × Nat) (fd th : Nat)
    (htg : parseIntW 32 (trim tgidTok) = some tg)
    (hpd : parseIntW 32 (trim pidTok) = some pd)
    (hpp : parseIntW 32 (trim ppidTok) = some pp)
    (htr : parseIntW 32 (trim tracerTok) = some tr)
    (hu : parse_uids (trim uidTok) = some u)
    (hg : parse_uids (trim gidTok) = some g)
    (hfd : parseUIntW 32 (trim fdTok) = some fd)
    (hth : parseUIntW 32 (trim thrTok) = some th) :
    PidStatus.parse_string (mandStatusLines nameTok tgidTok pidTok ppidTok
        tracerTok uidTok gidTok fdTok thrTok) =
      .ok { name := trim nameTok, tgid := tg, pid := pd, ppid := pp,
            tracerpid := tr, uid := u, gid := g, fdsize := fd,
            vmpeak := none, vmsize := none, vmlck := none, vmpin := none, vmhwm := none, vmrss := none, vmdata := none, vmstk := none, vmexe := none, vmlib := none, vmpte := none, vmpmd := none, vmswap := none, threads := th } ∧
    ∀ i : Fin 9,
      PidStatus.parse_string ((mandStatusLines nameTok tgidTok pidTok ppidTok
          tracerTok uidTok gidTok fdTok thrTok).eraseIdx i.val) =
        .error ⟨.ParsingField, .PidStatus, some ("missing " ++ statusKeyName i)⟩ := by
  constructor
  · simp only [mandStatusLines, PidStatus.parse_string, statusFold,
      processLine_name_ok,
      processLine_tgid_ok tgidTok tg htg, processLine_pid_ok pidTok pd hpd,
      processLine_ppid_ok ppidTok pp hpp,
      processLine_tracerpid_ok tracerTok tr htr,
      processLine_uid_ok uidTok u hu, processLine_gid_ok gidTok g hg,
      processLine_fdsize_ok fdTok fd hfd, processLine_threads_ok thrTok th hth,
      statusFinish]
  · intro i
    fin_cases i <;>
      simp only [mandStatusLines, List.eraseIdx, PidStatus.parse_string,
        statusFold, statusKeyName, processLine_name_ok,
        processLine_tgid_ok tgidTok tg htg, processLine_pid_ok pidTok pd hpd,
        processLine_ppid_ok ppidTok pp hpp,
        processLine_tracerpid_ok tracerTok tr htr,
        processLine_uid_ok uidTok u hu, processLine_gid_ok gidTok g hg,
        processLine_fdsize_ok fdTok fd hfd, processLine_threads_ok thrTok th hth,
        statusFinish] <;>
      rfl

/-- C3 witness: the amended theorem at a concrete nine-key record, and the
failure naming `Threads` when its line is dropped. -/
theorem status_mandatory_nine_witness :
    PidStatus.parse_string (mandStatusLines ("\tbash".toList) ("\t27899".toList)
        ("\t27899".toList) ("\t4351".toList) ("\t0".toList)
        ("\t1000\t1000\t1000\t1000".toList) ("\t1000\t1000\t1000\t1000".toList)
        ("\t256".toList) ("\t1".toList)) =
      .ok { name := trim ("\tbash".toList), tgid := 27899, pid := 27899,
            ppid := 4351, tracerpid := 0, uid := (1000, 1000, 1000, 1000),
            gid := (1000, 1000, 1000, 1000), fdsize := 256,
            vmpeak := none, vmsize := none, vmlck := none, vmpin := none, vmhwm := none, vmrss := none, vmdata := none, vmstk := none, vmexe := none, vmlib := none, vmpte := none, vmpmd := none, vmswap := none, threads := 1 } ∧
    PidStatus.parse_string ((mandStatusLines ("\tbash".toList) ("\t27899".toList)
        ("\t27899".toList) ("\t4351".toList) ("\t0".toList)
        ("\t1000\t1000\t1000\t1000".toList) ("\t1000\t1000\t1000\t1000".toList)
        ("\t256".toList) ("\t1".toList)).eraseIdx 8) =
      .error ⟨.ParsingField, .PidStatus, some ("missing " ++ statusKeyName 8)⟩ := by
  have h := status_mandatory_nine ("\tbash".toList) ("\t27899".toList)
    ("\t27899".toList) ("\t4351".toList) ("\t0".toList)
    ("\t1000\t1000\t1000\t1000".toList) ("\t1000\t1000\t1000\t1000".toList)
    ("\t256".toList) ("\t1".toList) 27899 27899 4351 0
    (1000, 1000, 1000, 1000) (1000, 1000, 1000, 1000) 256 1
    (by decide) (by decide) (by decide) (by decide) (by decide) (by decide)
    (by decide) (by decide)
  exact ⟨h.1, h.2 8⟩



/-! ## The `" kB"` suffix stripping of `parse_mem` (C7) -/

theorem startsWithB_append_self (a b : List Char) : startsWithB (a ++ b) a = true := by
  induction a with
  | nil =>
    cases b with
    | nil => rfl
    | cons c cs => rfl
  | cons c cs ih => simp [startsWithB, ih]

theorem endsWithB_append_self (s pat : List Char) : endsWithB (s ++ pat) pat = true := by
  unfold endsWithB
  rw [List.reverse_append]
  exact startsWithB_append_self pat.reverse s.reverse

theorem trimRightMatches_step {pat s : List Char}
    (hc : pat ≠ [] ∧ endsWithB s pat = true) :
    trimRightMatches pat s =
      trimRightMatchesAux pat s.length (s.take (s.length - pat.length)) := by
  rw [trimRightMatches, trimRightMatchesAux, if_pos hc]

theorem trimRightMatchesAux_fuel (pat : List Char) :
    ∀ fuel s, s.length < fuel →
      trimRightMatchesAux pat fuel s = trimRightMatches pat s := by
  intro fuel
  induction fuel using Nat.strong_induction_on with
  | _ fuel ih =>
    intro s hs
    match fuel, hs with
    | f + 1, hs =>
      rw [trimRightMatchesAux]
      by_cases hc : pat ≠ [] ∧ endsWithB s pat = true
      · rw [if_pos hc]
        have hplen : 1 ≤ pat.length := by
          have := List.length_pos.mpr hc.1
          omega
        have hple : pat.length ≤ s.length := by
          have := startsWithB_length hc.2
          simpa using this
        have hlen' : (s.take (s.length - pat.length)).length = s.length - pat.length := by
          simp [List.length_take]
        rw [ih f (by omega) _ (by rw [hlen']; omega)]
        rw [trimRightMatches_step hc]
        rw [ih s.length (by omega) _ (by rw [hlen']; omega)]
      · rw [if_neg hc, trimRightMatches, trimRightMatchesAux, if_neg hc]

theorem trimRightMatches_of_not_suffix {pat s : List Char}
    (h : endsWithB s pat = false) : trimRightMatches pat s = s := by
  rw [trimRightMatches, trimRightMatchesAux]
  simp [h]

theorem trimRightMatches_append (pat s : List Char) (hp : pat ≠ []) :
    trimRightMatches pat (s ++ pat) = trimRightMatches pat s := by
  have hplen : 1 ≤ pat.length := by
    have := List.length_pos.mpr hp
    omega
  rw [trimRightMatches, trimRightMatchesAux,
    if_pos ⟨hp, endsWithB_append_self s pat⟩]
  have htake : (s ++ pat).take ((s ++ pat).length - pat.length) = s := by
    rw [List.length_append,
      show s.length + pat.length - pat.length = s.length from by omega]
    exact List.take_left s pat
  rw [htake]
  exact trimRightMatchesAux_fuel pat _ _ (by rw [List.length_append]; omega)

/-- Modelled from the spec: "strips a fixed unit suffix (" kB") if present,
parses the remainder as an unsigned integer, multiplies by 1024" — read as
stripping at most one occurrence of the suffix.  Stated only to compare with
the code's `parse_mem`, which strips *every* trailing occurrence. -/
def specParseMem (s : List Char) : Option Nat :=
  (parseUIntW 64
      (if endsWithB s (" kB".toList) = true then s.take (s.length - 3) else s)).map
    (fun n => n * 1024 % 2 ^ 64)

/-- C7 counterexample to the claim as stated: on `"1 kB kB"` the code strips
both trailing `" kB"` occurrences and succeeds with 1024, while stripping the
suffix once, as the claim describes, leaves the unparsable remainder
`"1 kB"`, an error. -/
theorem status_mem_kb_strip_counterexample :
    parse_mem ("1 kB kB".toList) = some 1024 ∧
    specParseMem ("1 kB kB".toList) = none := by decide

/-- C7 (amended: *every* trailing repetition of `" kB"` is stripped): the
round trip `"20896 kB"` ↦ 20896 × 1024 = 21397504 holds exactly; on a string
without the suffix the parser is exactly `u64` parsing (failure for failure)
followed by the by-1024 multiplication; and a trailing `" kB"` never changes
the result. -/
theorem status_mem_kb_parse :
    parse_mem ("20896 kB".toList) = some 21397504 ∧
    (∀ s, endsWithB s (" kB".toList) = false →
      parse_mem s = (parseUIntW 64 s).map (fun n => n * 1024 % 2 ^ 64)) ∧
    (∀ s, parse_mem (s ++ (" kB".toList)) = parse_mem s) := by
  refine ⟨by decide, ?_, ?_⟩
  · intro s hs
    rw [parse_mem, trimRightMatches_of_not_suffix hs]
  · intro s
    rw [parse_mem, parse_mem, trimRightMatches_append _ _ (by decide)]

/-- C7 witness: the amended theorem's two universal parts applied at
`"20896"`. -/
theorem status_mem_kb_parse_witness :
    parse_mem ("20896".toList) =
      (parseUIntW 64 ("20896".toList)).map (fun n => n * 1024 % 2 ^ 64) ∧
    parse_mem ("20896".toList ++ (" kB".toList)) = parse_mem ("20896".toList) :=
  ⟨status_mem_kb_parse.2.1 _ (by decide), status_mem_kb_parse.2.2 _⟩


/-! ## Duplicate status keys: last write wins (C8) -/

theorem setArm_ok_inv {CellT : Type} {parse : List Char → Option CellT}
    {key : String} {set : StatusAcc → CellT → StatusAcc} {acc : StatusAcc}
    {v : List Char} {a : StatusAcc} (h : setArm parse key set acc v = .ok a) :
    ∃ x, parse v = some x ∧ a = set acc x := by
  rw [setArm] at h
  cases hp : parse v with
  | none => rw [hp] at h; cases h
  | some x =>
    rw [hp] at h
    cases h
    exact ⟨x, rfl, rfl⟩

theorem setArm_ok_of {CellT : Type} {parse : List Char → Option CellT}
    {key : String} {set : StatusAcc → CellT → StatusAcc} {acc : StatusAcc}
    {v : List Char} {x : CellT} (h : parse v = some x) :
    setArm parse key set acc v = .ok (set acc x) := by
  rw [setArm, h]

/-- A recognized-key arm never reads the slot it writes: processing the same
key twice with valid values equals processing only the later one. -/
theorem setArm_lww {CellT : Type} (parse : List Char → Option CellT)
    (key : String) (set : StatusAcc → CellT → StatusAcc)
    (hset : ∀ a x y, set (set a x) y = set a y)
    {acc a₁ a₂ : StatusAcc} {v₁ v₂ : List Char}
    (h₁ : setArm parse key set acc v₁ = .ok a₁)
    (h₂ : setArm parse key set a₁ v₂ = .ok a₂) :
    setArm parse key set acc v₂ = .ok a₂ := by
  obtain ⟨x₁, hp₁, ha₁⟩ := setArm_ok_inv h₁
  obtain ⟨x₂, hp₂, ha₂⟩ := setArm_ok_inv h₂
  subst ha₁
  subst ha₂
  rw [setArm_ok_of hp₂, hset]

theorem statusFold_dup {l₁ l₂ : List Char} {acc a₁ a₂ : StatusAcc}
    (h₁ : processLine acc l₁ = .ok a₁) (h₂ : processLine a₁ l₂ = .ok a₂)
    (h₃ : processLine acc l₂ = .ok a₂) (ls : List (Except ProcError (List Char))) :
    statusFold acc (.ok l₁ :: .ok l₂ :: ls) = statusFold acc (.ok l₂ :: ls) := by
  simp only [statusFold, h₁, h₂, h₃]

set_option maxHeartbeats 1000000 in
/-- C8: for each of the 22 recognized status keys, if a line for that key
processes to `a₁` and a second line for the same key then processes to `a₂`,
the second line alone already processes to the same `a₂` (the later
occurrence silently overwrites the earlier, with no error), and in the line
fold the earlier duplicate line can be dropped without changing the result. -/
theorem status_duplicate_key_lww :
    (∀ (acc a₁ a₂ : StatusAcc) (t₁ t₂ : List Char),
      processLine acc (mkLine "Name" t₁) = .ok a₁ →
      processLine a₁ (mkLine "Name" t₂) = .ok a₂ →
      processLine acc (mkLine "Name" t₂) = .ok a₂ ∧
      ∀ ls, statusFold acc (.ok (mkLine "Name" t₁) :: .ok (mkLine "Name" t₂) :: ls) =
        statusFold acc (.ok (mkLine "Name" t₂) :: ls)) ∧
    (∀ (acc a₁ a₂ : StatusAcc) (t₁ t₂ : List Char),
      processLine acc (mkLine "Tgid" t₁) = .ok a₁ →
      processLine a₁ (mkLine "Tgid" t₂) = .ok a₂ →
      processLine acc (mkLine "Tgid" t₂) = .ok a₂ ∧
      ∀ ls, statusFold acc (.ok (mkLine "Tgid" t₁) :: .ok (mkLine "Tgid" t₂) :: ls) =
        statusFold acc (.ok (mkLine "Tgid" t₂) :: ls)) ∧
    (∀ (acc a₁ a₂ : StatusAcc) (t₁ t₂ : List Char),
      processLine acc (mkLine "Pid" t₁) = .ok a₁ →
      processLine a₁ (mkLine "Pid" t₂) = .ok a₂ →
      processLine acc (mkLine "Pid" t₂) = .ok a₂ ∧
      ∀ ls, statusFold acc (.ok (mkLine "Pid" t₁) :: .ok (mkLine "Pid" t₂) :: ls) =
        statusFold acc (.ok (mkLine "Pid" t₂) :: ls)) ∧
    (∀ (acc a₁ a₂ : StatusAcc) (t₁ t₂ : List Char),
      processLine acc (mkLine "PPid" t₁) = .ok a₁ →
      processLine a₁ (mkLine "PPid" t₂) = .ok a₂ →
      processLine acc (mkLine "PPid" t₂) = .ok a₂ ∧
      ∀ ls, statusFold acc (.ok (mkLine "PPid" t₁) :: .ok (mkLine "PPid" t₂) :: ls) =
        statusFold acc (.ok (mkLine "PPid" t₂) :: ls)) ∧
    (∀ (acc a₁ a₂ : StatusAcc) (t₁ t₂ : List Char),
      processLine acc (mkLine "TracerPid" t₁) = .ok a₁ →
      processLine a₁ (mkLine "TracerPid" t₂) = .ok a₂ →
      processLine acc (mkLine "TracerPid" t₂) = .ok a₂ ∧
      ∀ ls, statusFold acc (.ok (mkLine "TracerPid" t₁) :: .ok (mkLine "TracerPid" t₂) :: ls) =
        statusFold acc (.ok (mkLine "TracerPid" t₂) :: ls)) ∧
    (∀ (acc a₁ a₂ : StatusAcc) (t₁ t₂ : List Char),
      processLine acc (mkLine "Uid" t₁) = .ok a₁ →
      processLine a₁ (mkLine "Uid" t₂) = .ok a₂ →
      processLine acc (mkLine "Uid" t₂) = .ok a₂ ∧
      ∀ ls, statusFold acc (.ok (mkLine "Uid" t₁) :: .ok (mkLine "Uid" t₂) :: ls) =
        statusFold acc (.ok (mkLine "Uid" t₂) :: ls)) ∧
    (∀ (acc a₁ a₂ : StatusAcc) (t₁ t₂ : List Char),
      processLine acc (mkLine "Gid" t₁) = .ok a₁ →
      processLine a₁ (mkLine "Gid" t₂) = .ok a₂ →
      processLine acc (mkLine "Gid" t₂) = .ok a₂ ∧
      ∀ ls, statusFold acc (.ok (mkLine "Gid" t₁) :: .ok (mkLine "Gid" t₂) :: ls) =
        statusFold acc (.ok (mkLine "Gid" t₂) :: ls)) ∧
    (∀ (acc a₁ a₂ : StatusAcc) (t₁ t₂ : List Char),
      processLine acc (mkLine "FDSize" t₁) = .ok a₁ →
      processLine a₁ (mkLine "FDSize" t₂) = .ok a₂ →
      processLine acc (mkLine "FDSize" t₂) = .ok a₂ ∧
      ∀ ls, statusFold acc (.ok (mkLine "FDSize" t₁) :: .ok (mkLine "FDSize" t₂) :: ls) =
        statusFold acc (.ok (mkLine "FDSize" t₂) :: ls)) ∧
    (∀ (acc a₁ a₂ : StatusAcc) (t₁ t₂ : List Char),
      processLine acc (mkLine "VmPeak" t₁) = .ok a₁ →
      processLine a₁ (mkLine "VmPeak" t₂) = .ok a₂ →
      processLine acc (mkLine "VmPeak" t₂) = .ok a₂ ∧
      ∀ ls, statusFold acc (.ok (mkLine "VmPeak" t₁) :: .ok (mkLine "VmPeak" t₂) :: ls) =
        statusFold acc (.ok (mkLine "VmPeak" t₂) :: ls)) ∧
    (∀ (acc a₁ a₂ : StatusAcc) (t₁ t₂ : List Char),
      processLine acc (mkLine "VmSize" t₁) = .ok a₁ →
      processLine a₁ (mkLine "VmSize" t₂) = .ok a₂ →
      processLine acc (mkLine "VmSize" t₂) = .ok a₂ ∧
      ∀ ls, statusFold acc (.ok (mkLine "VmSize" t₁) :: .ok (mkLine "VmSize" t₂) :: ls) =
        statusFold acc (.ok (mkLine "VmSize" t₂) :: ls)) ∧
    (∀ (acc a₁ a₂ : StatusAcc) (t₁ t₂ : List Char),
      processLine acc (mkLine "VmLck" t₁) = .ok a₁ →
      processLine a₁ (mkLine "VmLck" t₂) = .ok a₂ →
      processLine acc (mkLine "VmLck" t₂) = .ok a₂ ∧
      ∀ ls, statusFold acc (.ok (mkLine "VmLck" t₁) :: .ok (mkLine "VmLck" t₂) :: ls) =
        statusFold acc (.ok (mkLine "VmLck" t₂) :: ls)) ∧
    (∀ (acc a₁ a₂ : StatusAcc) (t₁ t₂ : List Char),
      processLine acc (mkLine "VmPin" t₁) = .ok a₁ →
      processLine a₁ (mkLine "VmPin" t₂) = .ok a₂ →
      processLine acc (mkLine "VmPin" t₂) = .ok a₂ ∧
      ∀ ls, statusFold acc (.ok (mkLine "VmPin" t₁) :: .ok (mkLine "VmPin" t₂) :: ls) =
        statusFold acc (.ok (mkLine "VmPin" t₂) :: ls)) ∧
    (∀ (acc a₁ a₂ : StatusAcc) (t₁ t₂ : List Char),
      processLine acc (mkLine "VmHWM" t₁) = .ok a₁ →
      processLine a₁ (mkLine "VmHWM" t₂) = .ok a₂ →
      processLine acc (mkLine "VmHWM" t₂) = .ok a₂ ∧
      ∀ ls, statusFold acc (.ok (mkLine "VmHWM" t₁) :: .ok (mkLine "VmHWM" t₂) :: ls) =
        statusFold acc (.ok (mkLine "VmHWM" t₂) :: ls)) ∧
    (∀ (acc a₁ a₂ : StatusAcc) (t₁ t₂ : List Char),
      processLine acc (mkLine "VmRSS" t₁) = .ok a₁ →
      processLine a₁ (mkLine "VmRSS" t₂) = .ok a₂ →
      processLine acc (mkLine "VmRSS" t₂) = .ok a₂ ∧
      ∀ ls, statusFold acc (.ok (mkLine "VmRSS" t₁) :: .ok (mkLine "VmRSS" t₂) :: ls) =
        statusFold acc (.ok (mkLine "VmRSS" t₂) :: ls)) ∧
    (∀ (acc a₁ a₂ : StatusAcc) (t₁ t₂ : List Char),
      processLine acc (mkLine "VmData" t₁) = .ok a₁ →
      processLine a₁ (mkLine "VmData" t₂) = .ok a₂ →
      processLine acc (mkLine "VmData" t₂) = .ok a₂ ∧
      ∀ ls, statusFold acc (.ok (mkLine "VmData" t₁) :: .ok (mkLine "VmData" t₂) :: ls) =
        statusFold acc (.ok (mkLine "VmData" t₂) :: ls)) ∧
    (∀ (acc a₁ a₂ : StatusAcc) (t₁ t₂ : List Char),
      processLine acc (mkLine "VmStk" t₁) = .ok a₁ →
      processLine a₁ (mkLine "VmStk" t₂) = .ok a₂ →
      processLine acc (mkLine "VmStk" t₂) = .ok a₂ ∧
      ∀ ls, statusFold acc (.ok (mkLine "VmStk" t₁) :: .ok (mkLine "VmStk" t₂) :: ls) =
        statusFold acc (.ok (mkLine "VmStk" t₂) :: ls)) ∧
    (∀ (acc a₁ a₂ : StatusAcc) (t₁ t₂ : List Char),
      processLine acc (mkLine "VmExe" t₁) = .ok a₁ →
      processLine a₁ (mkLine "VmExe" t₂) = .ok a₂ →
      processLine acc (mkLine "VmExe" t₂) = .ok a₂ ∧
      ∀ ls, statusFold acc (.ok (mkLine "VmExe" t₁) :: .ok (mkLine "VmExe" t₂) :: ls) =
        statusFold acc (.ok (mkLine "VmExe" t₂) :: ls)) ∧
    (∀ (acc a₁ a₂ : StatusAcc) (t₁ t₂ : List Char),
      processLine acc (mkLine "VmLib" t₁) = .ok a₁ →
      processLine a₁ (mkLine "VmLib" t₂) = .ok a₂ →
      processLine acc (mkLine "VmLib" t₂) = .ok a₂ ∧
      ∀ ls, statusFold acc (.ok (mkLine "VmLib" t₁) :: .ok (mkLine "VmLib" t₂) :: ls) =
        statusFold acc (.ok (mkLine "VmLib" t₂) :: ls)) ∧
    (∀ (acc a₁ a₂ : StatusAcc) (t₁ t₂ : List Char),
      processLine acc (mkLine "VmPTE" t₁) = .ok a₁ →
      processLine a₁ (mkLine "VmPTE" t₂) = .ok a₂ →
      processLine acc (mkLine "VmPTE" t₂) = .ok a₂ ∧
      ∀ ls, statusFold acc (.ok (mkLine "VmPTE" t₁) :: .ok (mkLine "VmPTE" t₂) :: ls) =
        statusFold acc (.ok (mkLine "VmPTE" t₂) :: ls)) ∧
    (∀ (acc a₁ a₂ : StatusAcc) (t₁ t₂ : List Char),
      processLine acc (mkLine "VmPMD" t₁) = .ok a₁ →
      processLine a₁ (mkLine "VmPMD" t₂) = .ok a₂ →
      processLine acc (mkLine "VmPMD" t₂) = .ok a₂ ∧
      ∀ ls, statusFold acc (.ok (mkLine "VmPMD" t₁) :: .ok (mkLine "VmPMD" t₂) :: ls) =
        statusFold acc (.ok (mkLine "VmPMD" t₂) :: ls)) ∧
    (∀ (acc a₁ a₂ : StatusAcc) (t₁ t₂ : List Char),
      processLine acc (mkLine "VmSwap" t₁) = .ok a₁ →
      processLine a₁ (mkLine "VmSwap" t₂) = .ok a₂ →
      processLine acc (mkLine "VmSwap" t₂) = .ok a₂ ∧
      ∀ ls, statusFold acc (.ok (mkLine "VmSwap" t₁) :: .ok (mkLine "VmSwap" t₂) :: ls) =
        statusFold acc (.ok (mkLine "VmSwap" t₂) :: ls)) ∧
    (∀ (acc a₁ a₂ : StatusAcc) (t₁ t₂ : List Char),
      processLine acc (mkLine "Threads" t₁) = .ok a₁ →
      processLine a₁ (mkLine "Threads" t₂) = .ok a₂ →
      processLine acc (mkLine "Threads" t₂) = .ok a₂ ∧
      ∀ ls, statusFold acc (.ok (mkLine "Threads" t₁) :: .ok (mkLine "Threads" t₂) :: ls) =
        statusFold acc (.ok (mkLine "Threads" t₂) :: ls)) := by
  refine ⟨?_, ?_, ?_, ?_, ?_, ?_, ?_, ?_, ?_, ?_, ?_, ?_, ?_, ?_, ?_, ?_, ?_, ?_, ?_, ?_, ?_, ?_⟩
  · intro acc a₁ a₂ t₁ t₂ h₁ h₂
    have h₃ := setArm_lww ((fun s => some s)) "Name"
      (fun a x => { a with name := some x }) (fun a x y => rfl) h₁ h₂
    exact ⟨h₃, fun ls => statusFold_dup h₁ h₂ h₃ ls⟩
  · intro acc a₁ a₂ t₁ t₂ h₁ h₂
    have h₃ := setArm_lww (parseIntW 32) "Tgid"
      (fun a x => { a with tgid := some x }) (fun a x y => rfl) h₁ h₂
    exact ⟨h₃, fun ls => statusFold_dup h₁ h₂ h₃ ls⟩
  · intro acc a₁ a₂ t₁ t₂ h₁ h₂
    have h₃ := setArm_lww (parseIntW 32) "Pid"
      (fun a x => { a with pid := some x }) (fun a x y => rfl) h₁ h₂
    exact ⟨h₃, fun ls => statusFold_dup h₁ h₂ h₃ ls⟩
  · intro acc a₁ a₂ t₁ t₂ h₁ h₂
    have h₃ := setArm_lww (parseIntW 32) "PPid"
      (fun a x => { a with ppid := some x }) (fun a x y => rfl) h₁ h₂
    exact ⟨h₃, fun ls => statusFold_dup h₁ h₂ h₃ ls⟩
  · intro acc a₁ a₂ t₁ t₂ h₁ h₂
    have h₃ := setArm_lww (parseIntW 32) "TracerPid"
      (fun a x => { a with tracerpid := some x }) (fun a x y => rfl) h₁ h₂
    exact ⟨h₃, fun ls => statusFold_dup h₁ h₂ h₃ ls⟩
  · intro acc a₁ a₂ t₁ t₂ h₁ h₂
    have h₃ := setArm_lww (parse_uids) "Uid"
      (fun a x => { a with uid := some x }) (fun a x y => rfl) h₁ h₂
    exact ⟨h₃, fun ls => statusFold_dup h₁ h₂ h₃ ls⟩
  · intro acc a₁ a₂ t₁ t₂ h₁ h₂
    have h₃ := setArm_lww (parse_uids) "Gid"
      (fun a x => { a with gid := some x }) (fun a x y => rfl) h₁ h₂
    exact ⟨h₃, fun ls => statusFold_dup h₁ h₂ h₃ ls⟩
  · intro acc a₁ a₂ t₁ t₂ h₁ h₂
    have h₃ := setArm_lww (parseUIntW 32) "FDSize"
      (fun a x => { a with fdsize := some x }) (fun a x y => rfl) h₁ h₂
    exact ⟨h₃, fun ls => statusFold_dup h₁ h₂ h₃ ls⟩
  · intro acc a₁ a₂ t₁ t₂ h₁ h₂
    have h₃ := setArm_lww (parse_mem) "VmPeak"
      (fun a x => { a with vmpeak := some x }) (fun a x y => rfl) h₁ h₂
    exact ⟨h₃, fun ls => statusFold_dup h₁ h₂ h₃ ls⟩
  · intro acc a₁ a₂ t₁ t₂ h₁ h₂
    have h₃ := setArm_lww (parse_mem) "VmSize"
      (fun a x => { a with vmsize := some x }) (fun a x y => rfl) h₁ h₂
    exact ⟨h₃, fun ls => statusFold_dup h₁ h₂ h₃ ls⟩
  · intro acc a₁ a₂ t₁ t₂ h₁ h₂
    have h₃ := setArm_lww (parse_mem) "VmLck"
      (fun a x => { a with vmlck := some x }) (fun a x y => rfl) h₁ h₂
    exact ⟨h₃, fun ls => statusFold_dup h₁ h₂ h₃ ls⟩
  · intro acc a₁ a₂ t₁ t₂ h₁ h₂
    have h₃ := setArm_lww (parse_mem) "VmPin"
      (fun a x => { a with vmpin := some x }) (fun a x y => rfl) h₁ h₂
    exact ⟨h₃, fun ls => statusFold_dup h₁ h₂ h₃ ls⟩
  · intro acc a₁ a₂ t₁ t₂ h₁ h₂
    have h₃ := setArm_lww (parse_mem) "VmHWM"
      (fun a x => { a with vmhwm := some x }) (fun a x y => rfl) h₁ h₂
    exact ⟨h₃, fun ls => statusFold_dup h₁ h₂ h₃ ls⟩
  · intro acc a₁ a₂ t₁ t₂ h₁ h₂
    have h₃ := setArm_lww (parse_mem) "VmRSS"
      (fun a x => { a with vmrss := some x }) (fun a x y => rfl) h₁ h₂
    exact ⟨h₃, fun ls => statusFold_dup h₁ h₂ h₃ ls⟩
  · intro acc a₁ a₂ t₁ t₂ h₁ h₂
    have h₃ := setArm_lww (parse_mem) "VmData"
      (fun a x => { a with vmdata := some x }) (fun a x y => rfl) h₁ h₂
    exact ⟨h₃, fun ls => statusFold_dup h₁ h₂ h₃ ls⟩
  · intro acc a₁ a₂ t₁ t₂ h₁ h₂
    have h₃ := setArm_lww (parse_mem) "VmStk"
      (fun a x => { a with vmstk := some x }) (fun a x y => rfl) h₁ h₂
    exact ⟨h₃, fun ls => statusFold_dup h₁ h₂ h₃ ls⟩
  · intro acc a₁ a₂ t₁ t₂ h₁ h₂
    have h₃ := setArm_lww (parse_mem) "VmExe"
      (fun a x => { a with vmexe := some x }) (fun a x y => rfl) h₁ h₂
    exact ⟨h₃, fun ls => statusFold_dup h₁ h₂ h₃ ls⟩
  · intro acc a₁ a₂ t₁ t₂ h₁ h₂
    have h₃ := setArm_lww (parse_mem) "VmLib"
      (fun a x => { a with vmlib := some x }) (fun a x y => rfl) h₁ h₂
    exact ⟨h₃, fun ls => statusFold_dup h₁ h₂ h₃ ls⟩
  · intro acc a₁ a₂ t₁ t₂ h₁ h₂
    have h₃ := setArm_lww (parse_mem) "VmPTE"
      (fun a x => { a with vmpte := some x }) (fun a x y => rfl) h₁ h₂
    exact ⟨h₃, fun ls => statusFold_dup h₁ h₂ h₃ ls⟩
  · intro acc a₁ a₂ t₁ t₂ h₁ h₂
    have h₃ := setArm_lww (parse_mem) "VmPMD"
      (fun a x => { a with vmpmd := some x }) (fun a x y => rfl) h₁ h₂
    exact ⟨h₃, fun ls => statusFold_dup h₁ h₂ h₃ ls⟩
  · intro acc a₁ a₂ t₁ t₂ h₁ h₂
    have h₃ := setArm_lww (parse_mem) "VmSwap"
      (fun a x => { a with vmswap := some x }) (fun a x y => rfl) h₁ h₂
    exact ⟨h₃, fun ls => statusFold_dup h₁ h₂ h₃ ls⟩
  · intro acc a₁ a₂ t₁ t₂ h₁ h₂
    have h₃ := setArm_lww (parseUIntW 32) "Threads"
      (fun a x => { a with threads := some x }) (fun a x y => rfl) h₁ h₂
    exact ⟨h₃, fun ls => statusFold_dup h₁ h₂ h₃ ls⟩

/-- C8 witness: a duplicated `Tgid` line — the record keeps the later value
and the earlier duplicate is irrelevant to the fold. -/
theorem status_duplicate_key_lww_witness :
    processLine {} (mkLine "Tgid" ("7".toList)) = .ok { tgid := some 7 } ∧
    statusFold {} [.ok (mkLine "Tgid" ("5".toList)), .ok (mkLine "Tgid" ("7".toList))] =
      statusFold {} [.ok (mkLine "Tgid" ("7".toList))] := by
  have h := status_duplicate_key_lww.2.1 {} { tgid := some 5 } { tgid := some 7 }
      ("5".toList) ("7".toList) (by decide) (by decide)
  exact ⟨h.1, h.2 []⟩


/-! ## Memory summary parser (`meminfo/mod.rs`) -/

theorem isWh_false_of_digit {c : Char} (h1 : '0' ≤ c) (h2 : c ≤ '9') :
    isWh c = false := by
  have w1 : ¬ (c = ' ') := fun he => by rw [he] at h1; exact absurd h1 (by decide)
  have w2 : ¬ (c = '\t') := fun he => by rw [he] at h1; exact absurd h1 (by decide)
  have w3 : ¬ (c = '\n') := fun he => by rw [he] at h1; exact absurd h1 (by decide)
  have w4 : ¬ (c = '\r') := fun he => by rw [he] at h1; exact absurd h1 (by decide)
  have w5 : ¬ (c = '\x0b') := fun he => by rw [he] at h1; exact absurd h1 (by decide)
  have w6 : ¬ (c = '\x0c') := fun he => by rw [he] at h1; exact absurd h1 (by decide)
  simp [isWh, w1, w2, w3, w4, w5, w6]

theorem splitWhAux_token_space (t : List Char) (r acc : List Char)
    (ht : ∀ c ∈ t, isWh c = false) (hne : t ≠ [] ∨ acc ≠ []) :
    splitWhAux (t ++ ' ' :: r) acc = (acc.reverse ++ t) :: splitWhAux r [] := by
  induction t generalizing acc with
  | nil =>
    have hacc : ¬ (acc = []) := by
      rcases hne with h | h
      · exact absurd rfl h
      · exact h
    simp [splitWhAux, hacc, show isWh ' ' = true from rfl]
  | cons c cs ih =>
    have hc : isWh c = false := ht c (by simp)
    have hcs : ∀ d ∈ cs, isWh d = false := fun d hd => ht d (by simp [hd])
    simp only [List.cons_append, splitWhAux, hc, Bool.false_eq_true, if_false,
      List.append_eq]
    rw [ih (c :: acc) hcs (Or.inr (by simp))]
    simp

theorem splitWhAux_token_end (t : List Char) (acc : List Char)
    (ht : ∀ c ∈ t, isWh c = false) (hne : t ≠ [] ∨ acc ≠ []) :
    splitWhAux t acc = [acc.reverse ++ t] := by
  induction t generalizing acc with
  | nil =>
    have hacc : ¬ (acc = []) := by
      rcases hne with h | h
      · exact absurd rfl h
      · exact h
    simp [splitWhAux, hacc]
  | cons c cs ih =>
    have hc : isWh c = false := ht c (by simp)
    have hcs : ∀ d ∈ cs, isWh d = false := fun d hd => ht d (by simp [hd])
    simp only [splitWhAux, hc, Bool.false_eq_true, if_false]
    rw [ih (c :: acc) hcs (Or.inr (by simp))]
    simp

/-- The `Meminfo` record: the 43 `u64` counters read from the report
(`DirectMap1G` is commented out in the source) plus the three derived
fields. -/
structure Meminfo where
  memtotal : Nat
  memfree : Nat
  memavailable : Nat
  buffers : Nat
  cached : Nat
  swapcached : Nat
  active : Nat
  inactive : Nat
  activeanon : Nat
  inactiveanon : Nat
  activefile : Nat
  inactivefile : Nat
  unevictable : Nat
  mlocked : Nat
  swaptotal : Nat
  swapfree : Nat
  dirty : Nat
  writeback : Nat
  anonpages : Nat
  mapped : Nat
  shmem : Nat
  slab : Nat
  srelclaimable : Nat
  sunreclaim : Nat
  kernelstack : Nat
  pagetables : Nat
  nfsunstable : Nat
  bounce : Nat
  writebacktmp : Nat
  commitlimit : Nat
  committedas : Nat
  vmalloctotal : Nat
  vmallocused : Nat
  vmallocchunk : Nat
  hardwarecorrupted : Nat
  anonhugepages : Nat
  hugepagestotal : Nat
  hugepagesfree : Nat
  hugepagsersvd : Nat
  hugepagessurp : Nat
  hugepagessize : Nat
  directmap4k : Nat
  directmap2m : Nat
  mainused : Nat
  maincached : Nat
  mainswapused : Nat
deriving DecidableEq

/-- `Meminfo::parse_line`: split the line on whitespace, take the first token
with every `:` trimmed as the key and the second parsed as `u64` as the
value.  The source unwraps at each step, so a line with no token, a missing
value or an unparsable value is a panic — modeled as `none`. -/
def Meminfo.parse_line (line : List Char) : Option (List Char × Nat) :=
  match splitWh line with
  | [] => none
  | k :: rest =>
    match rest with
    | [] => none
    | vtok :: _ =>
      match parseUIntW 64 vtok with
      | none => none
      | some v => some (trimMatchesChar ':' k, v)

/-- The interim `HashMap<String, u64>`, as a lookup function. -/
def HMap : Type := List Char → Option Nat

def hmEmpty : HMap := fun _ => none

/-- `HashMap::insert`: a later insert of the same key overwrites. -/
def hmInsert (m : HMap) (k : List Char) (v : Nat) : HMap :=
  fun q => if q = k then some v else m q

/-- `collect::<Result<HashMap, _>>()` over the parsed lines: the first
panicking line aborts (`none`), otherwise every pair is inserted in order. -/
def collectPairs : List (List Char) → Option (List (List Char × Nat))
  | [] => some []
  | l :: ls =>
    match Meminfo.parse_line l with
    | none => none
    | some p =>
      match collectPairs ls with
      | none => none
      | some ps => some (p :: ps)

def buildHMap (ps : List (List Char × Nat)) : HMap :=
  ps.foldl (fun m p => hmInsert m p.1 p.2) hmEmpty

/-- `Meminfo::build_minfo`: every key is fetched with `get(..).unwrap()`, so
a missing key is a panic — modeled as `none`.  No error value is ever
constructed on this path. -/
def build_minfo (hmap : HMap) : Option Meminfo :=
  match hmap ("MemTotal".toList) with
  | none => none
  | some memtotal =>
  match hmap ("MemFree".toList) with
  | none => none
  | some memfree =>
  match hmap ("MemAvailable".toList) with
  | none => none
  | some memavailable =>
  match hmap ("Buffers".toList) with
  | none => none
  | some buffers =>
  match hmap ("Cached".toList) with
  | none => none
  | some cached =>
  match hmap ("SwapCached".toList) with
  | none => none
  | some swapcached =>
  match hmap ("Active".toList) with
  | none => none
  | some active =>
  match hmap ("Inactive".toList) with
  | none => none
  | some inactive =>
  match hmap ("Active(anon)".toList) with
  | none => none
  | some activeanon =>
  match hmap ("Inactive(anon)".toList) with
  | none => none
  | some inactiveanon =>
  match hmap ("Active(file)".toList) with
  | none => none
  | some activefile =>
  match hmap ("Inactive(file)".toList) with
  | none => none
  | some inactivefile =>
  match hmap ("Unevictable".toList) with
  | none => none
  | some unevictable =>
  match hmap ("Mlocked".toList) with
  | none => none
  | some mlocked =>
  match hmap ("SwapTotal".toList) with
  | none => none
  | some swaptotal =>
  match hmap ("SwapFree".toList) with
  | none => none
  | some swapfree =>
  match hmap ("Dirty".toList) with
  | none => none
  | some dirty =>
  match hmap ("Writeback".toList) with
  | none => none
  | some writeback =>
  match hmap ("AnonPages".toList) with
  | none => none
  | some anonpages =>
  match hmap ("Mapped".toList) with
  | none => none
  | some mapped =>
  match hmap ("Shmem".toList) with
  | none => none
  | some shmem =>
  match hmap ("Slab".toList) with
  | none => none
  | some slab =>
  match hmap ("SReclaimable".toList) with
  | none => none
  | some srelclaimable =>
  match hmap ("SUnreclaim".toList) with
  | none => none
  | some sunreclaim =>
  match hmap ("KernelStack".toList) with
  | none => none
  | some kernelstack =>
  match hmap ("PageTables".toList) with
  | none => none
  | some pagetables =>
  match hmap ("NFS_Unstable".toList) with
  | none => none
  | some nfsunstable =>
  match hmap ("Bounce".toList) with
  | none => none
  | some bounce =>
  match hmap ("WritebackTmp".toList) with
  | none => none
  | some writebacktmp =>
  match hmap ("CommitLimit".toList) with
  | none => none
  | some commitlimit =>
  match hmap ("Committed_AS".toList) with
  | none => none
  | some committedas =>
  match hmap ("VmallocTotal".toList) with
  | none => none
  | some vmalloctotal =>
  match hmap ("VmallocUsed".toList) with
  | none => none
  | some vmallocused =>
  match hmap ("VmallocChunk".toList) with
  | none => none
  | some vmallocchunk =>
  match hmap ("HardwareCorrupted".toList) with
  | none => none
  | some hardwarecorrupted =>
  match hmap ("AnonHugePages".toList) with
  | none => none
  | some anonhugepages =>
  match hmap ("HugePages_Total".toList) with
  | none => none
  | some hugepagestotal =>
  match hmap ("HugePages_Free".toList) with
  | none => none
  | some hugepagesfree =>
  match hmap ("HugePages_Rsvd".toList) with
  | none => none
  | some hugepagsersvd =>
  match hmap ("HugePages_Surp".toList) with
  | none => none
  | some hugepagessurp =>
  match hmap ("Hugepagesize".toList) with
  | none => none
  | some hugepagessize =>
  match hmap ("DirectMap4k".toList) with
  | none => none
  | some directmap4k =>
  match hmap ("DirectMap2M".toList) with
  | none => none
  | some directmap2m =>
  match hmap ("MainUsed".toList) with
  | none => none
  | some mainused =>
  match hmap ("MainCached".toList) with
  | none => none
  | some maincached =>
  match hmap ("MainSwapUsed".toList) with
  | none => none
  | some mainswapused =>
  some {
    memtotal := memtotal,
    memfree := memfree,
    memavailable := memavailable,
    buffers := buffers,
    cached := cached,
    swapcached := swapcached,
    active := active,
    inactive := inactive,
    activeanon := activeanon,
    inactiveanon := inactiveanon,
    activefile := activefile,
    inactivefile := inactivefile,
    unevictable := unevictable,
    mlocked := mlocked,
    swaptotal := swaptotal,
    swapfree := swapfree,
    dirty := dirty,
    writeback := writeback,
    anonpages := anonpages,
    mapped := mapped,
    shmem := shmem,
    slab := slab,
    srelclaimable := srelclaimable,
    sunreclaim := sunreclaim,
    kernelstack := kernelstack,
    pagetables := pagetables,
    nfsunstable := nfsunstable,
    bounce := bounce,
    writebacktmp := writebacktmp,
    commitlimit := commitlimit,
    committedas := committedas,
    vmalloctotal := vmalloctotal,
    vmallocused := vmallocused,
    vmallocchunk := vmallocchunk,
    hardwarecorrupted := hardwarecorrupted,
    anonhugepages := anonhugepages,
    hugepagestotal := hugepagestotal,
    hugepagesfree := hugepagesfree,
    hugepagsersvd := hugepagsersvd,
    hugepagessurp := hugepagessurp,
    hugepagessize := hugepagessize,
    directmap4k := directmap4k,
    directmap2m := directmap2m,
    mainused := mainused,
    maincached := maincached,
    mainswapused := mainswapused
  }

/-- The pure part of `Meminfo::new` (after the file read): parse every line,
collect the map, add the three derived entries (`u64` wrapping arithmetic),
and build the record.  `none` models a panic. -/
def Meminfo.ofLines (lines : List (List Char)) : Option Meminfo :=
  match collectPairs lines with
  | none => none
  | some ps =>
    match buildHMap ps ("MemTotal".toList) with
    | none => none
    | some total =>
    match buildHMap ps ("MemFree".toList) with
    | none => none
    | some free =>
    match buildHMap ps ("Cached".toList) with
    | none => none
    | some cached =>
    match buildHMap ps ("Buffers".toList) with
    | none => none
    | some buffer =>
    let hmap1 := hmInsert (buildHMap ps) ("MainUsed".toList)
      (wsub64 (wsub64 (wsub64 total free) cached) buffer)
    match hmap1 ("Cached".toList) with
    | none => none
    | some page_cache =>
    match hmap1 ("Slab".toList) with
    | none => none
    | some slab =>
    let hmap2 := hmInsert hmap1 ("MainCached".toList) ((page_cache + slab) % 2 ^ 64)
    match hmap2 ("SwapTotal".toList) with
    | none => none
    | some swap_total =>
    match hmap2 ("SwapFree".toList) with
    | none => none
    | some swap_free =>
    build_minfo (hmInsert hmap2 ("MainSwapUsed".toList) (wsub64 swap_total swap_free))

/-- One rendered report line `Key: <value>[ kB]`. -/
def mkMemLine (k : String) (v : Nat) (u : Bool) : List Char :=
  (k.toList ++ [':']) ++ ' ' :: (natToChars v ++ (if u then ' ' :: ['k', 'B'] else []))

theorem parse_line_mk (k : String) (v : Nat) (u : Bool)
    (hk : ∀ c ∈ k.toList ++ [':'], isWh c = false)
    (htm : trimMatchesChar ':' (k.toList ++ [':']) = k.toList)
    (hv : v < 2 ^ 64) :
    Meminfo.parse_line (mkMemLine k v u) = some (k.toList, v) := by
  have hd : ∀ c ∈ natToChars v, isWh c = false := fun c hc =>
    isWh_false_of_digit (natToChars_digits v c hc).1 (natToChars_digits v c hc).2
  have hs1 : splitWh (mkMemLine k v u) =
      (k.toList ++ [':']) ::
        splitWhAux (natToChars v ++ (if u then ' ' :: ['k', 'B'] else [])) [] := by
    rw [mkMemLine, splitWh]
    have := splitWhAux_token_space (k.toList ++ [':'])
      (natToChars v ++ (if u then ' ' :: ['k', 'B'] else [])) [] hk (Or.inl (by simp))
    simpa using this
  obtain ⟨tl, hs2⟩ : ∃ tl,
      splitWhAux (natToChars v ++ (if u then ' ' :: ['k', 'B'] else [])) [] =
        natToChars v :: tl := by
    cases u with
    | true =>
      refine ⟨splitWhAux ['k', 'B'] [], ?_⟩
      have := splitWhAux_token_space (natToChars v) ['k', 'B'] [] hd
        (Or.inl (natToChars_ne_nil v))
      simpa using this
    | false =>
      refine ⟨[], ?_⟩
      have := splitWhAux_token_end (natToChars v) [] hd (Or.inl (natToChars_ne_nil v))
      simpa using this
  rw [Meminfo.parse_line, hs1, hs2]
  simp only [parseUIntW_natToChars hv, htm]



/-- A well-formed memory report: one line per consumed key, in the source's
struct order, with the four huge-page counters unit-less. -/
def memLines (memtotal memfree memavailable buffers cached swapcached active inactive activeanon inactiveanon activefile inactivefile unevictable mlocked swaptotal swapfree dirty writeback anonpages mapped shmem slab srelclaimable sunreclaim kernelstack pagetables nfsunstable bounce writebacktmp commitlimit committedas vmalloctotal vmallocused vmallocchunk hardwarecorrupted anonhugepages hugepagestotal hugepagesfree hugepagsersvd hugepagessurp hugepagessize directmap4k directmap2m : Nat) : List (List Char) :=
  [mkMemLine "MemTotal" memtotal true,
   mkMemLine "MemFree" memfree true,
   mkMemLine "MemAvailable" memavailable true,
   mkMemLine "Buffers" buffers true,
   mkMemLine "Cached" cached true,
   mkMemLine "SwapCached" swapcached true,
   mkMemLine "Active" active true,
   mkMemLine "Inactive" inactive true,
   mkMemLine "Active(anon)" activeanon true,
   mkMemLine "Inactive(anon)" inactiveanon true,
   mkMemLine "Active(file)" activefile true,
   mkMemLine "Inactive(file)" inactivefile true,
   mkMemLine "Unevictable" unevictable true,
   mkMemLine "Mlocked" mlocked true,
   mkMemLine "SwapTotal" swaptotal true,
   mkMemLine "SwapFree" swapfree true,
   mkMemLine "Dirty" dirty true,
   mkMemLine "Writeback" writeback true,
   mkMemLine "AnonPages" anonpages true,
   mkMemLine "Mapped" mapped true,
   mkMemLine "Shmem" shmem true,
   mkMemLine "Slab" slab true,
   mkMemLine "SReclaimable" srelclaimable true,
   mkMemLine "SUnreclaim" sunreclaim true,
   mkMemLine "KernelStack" kernelstack true,
   mkMemLine "PageTables" pagetables true,
   mkMemLine "NFS_Unstable" nfsunstable true,
   mkMemLine "Bounce" bounce true,
   mkMemLine "WritebackTmp" writebacktmp true,
   mkMemLine "CommitLimit" commitlimit true,
   mkMemLine "Committed_AS" committedas true,
   mkMemLine "VmallocTotal" vmalloctotal true,
   mkMemLine "VmallocUsed" vmallocused true,
   mkMemLine "VmallocChunk" vmallocchunk true,
   mkMemLine "HardwareCorrupted" hardwarecorrupted true,
   mkMemLine "AnonHugePages" anonhugepages true,
   mkMemLine "HugePages_Total" hugepagestotal false,
   mkMemLine "HugePages_Free" hugepagesfree false,
   mkMemLine "HugePages_Rsvd" hugepagsersvd false,
   mkMemLine "HugePages_Surp" hugepagessurp false,
   mkMemLine "Hugepagesize" hugepagessize true,
   mkMemLine "DirectMap4k" directmap4k true,
   mkMemLine "DirectMap2M" directmap2m true]

/-- A concrete well-formed memory report used by the C2 counterexample:
`MemTotal` 100 kB, `MemFree` 10 kB, `Buffers` 2 kB, `Cached` 5 kB, `Slab`
10 kB, `SReclaimable` 3 kB, `SwapTotal` 20 kB, `SwapFree` 8 kB. -/
def c2Lines : List (List Char) :=
  ["MemTotal: 100 kB".toList,
   "MemFree: 10 kB".toList,
   "MemAvailable: 50 kB".toList,
   "Buffers: 2 kB".toList,
   "Cached: 5 kB".toList,
   "SwapCached: 1 kB".toList,
   "Active: 1 kB".toList,
   "Inactive: 1 kB".toList,
   "Active(anon): 1 kB".toList,
   "Inactive(anon): 1 kB".toList,
   "Active(file): 1 kB".toList,
   "Inactive(file): 1 kB".toList,
   "Unevictable: 1 kB".toList,
   "Mlocked: 1 kB".toList,
   "SwapTotal: 20 kB".toList,
   "SwapFree: 8 kB".toList,
   "Dirty: 1 kB".toList,
   "Writeback: 1 kB".toList,
   "AnonPages: 1 kB".toList,
   "Mapped: 1 kB".toList,
   "Shmem: 1 kB".toList,
   "Slab: 10 kB".toList,
   "SReclaimable: 3 kB".toList,
   "SUnreclaim: 7 kB".toList,
   "KernelStack: 1 kB".toList,
   "PageTables: 1 kB".toList,
   "NFS_Unstable: 1 kB".toList,
   "Bounce: 1 kB".toList,
   "WritebackTmp: 1 kB".toList,
   "CommitLimit: 1 kB".toList,
   "Committed_AS: 1 kB".toList,
   "VmallocTotal: 1 kB".toList,
   "VmallocUsed: 1 kB".toList,
   "VmallocChunk: 1 kB".toList,
   "HardwareCorrupted: 0 kB".toList,
   "AnonHugePages: 1 kB".toList,
   "HugePages_Total: 4".toList,
   "HugePages_Free: 4".toList,
   "HugePages_Rsvd: 0".toList,
   "HugePages_Surp: 0".toList,
   "Hugepagesize: 2048 kB".toList,
   "DirectMap4k: 1 kB".toList,
   "DirectMap2M: 1 kB".toList]

/-- C2 counterexample to the claim as stated: on a well-formed report the
record keeps the parsed kilobyte numbers (MemTotal 100, not 102400 bytes),
and its effective-cache field is page cache + *total* `Slab` (5 + 10 = 15),
not page cache + `SReclaimable` (5 + 3 = 8). -/
theorem meminfo_kb_not_bytes_counterexample :
    (Meminfo.ofLines c2Lines).map Meminfo.memtotal = some 100 ∧
    ¬ ((Meminfo.ofLines c2Lines).map Meminfo.memtotal = some (100 * 1024)) ∧
    (Meminfo.ofLines c2Lines).map Meminfo.maincached = some 15 ∧
    ¬ ((Meminfo.ofLines c2Lines).map Meminfo.maincached = some (5 + 3)) := by
  decide

set_option maxHeartbeats 2000000 in
/-- C2 (amended: the mapping keeps each value as parsed, in the report's
kilobyte units with no byte normalization, and the effective cache sums page
cache and *total* slab): for every well-formed report, construction succeeds
with each counter equal to its parsed value, and the derived fields are
used = total − free − cache − buffers, effective cache = page cache + slab,
swap used = swap total − swap free, all in `u64` wrapping arithmetic. -/
theorem meminfo_construction (memtotal memfree memavailable buffers cached swapcached active inactive activeanon inactiveanon activefile inactivefile unevictable mlocked swaptotal swapfree dirty writeback anonpages mapped shmem slab srelclaimable sunreclaim kernelstack pagetables nfsunstable bounce writebacktmp commitlimit committedas vmalloctotal vmallocused vmallocchunk hardwarecorrupted anonhugepages hugepagestotal hugepagesfree hugepagsersvd hugepagessurp hugepagessize directmap4k directmap2m : Nat)
    (hmemtotal : memtotal < 2 ^ 64) (hmemfree : memfree < 2 ^ 64) (hmemavailable : memavailable < 2 ^ 64)
    (hbuffers : buffers < 2 ^ 64) (hcached : cached < 2 ^ 64) (hswapcached : swapcached < 2 ^ 64)
    (hactive : active < 2 ^ 64) (hinactive : inactive < 2 ^ 64) (hactiveanon : activeanon < 2 ^ 64)
    (hinactiveanon : inactiveanon < 2 ^ 64) (hactivefile : activefile < 2 ^ 64) (hinactivefile : inactivefile < 2 ^ 64)
    (hunevictable : unevictable < 2 ^ 64) (hmlocked : mlocked < 2 ^ 64) (hswaptotal : swaptotal < 2 ^ 64)
    (hswapfree : swapfree < 2 ^ 64) (hdirty : dirty < 2 ^ 64) (hwriteback : writeback < 2 ^ 64)
    (hanonpages : anonpages < 2 ^ 64) (hmapped : mapped < 2 ^ 64) (hshmem : shmem < 2 ^ 64)
    (hslab : slab < 2 ^ 64) (hsrelclaimable : srelclaimable < 2 ^ 64) (hsunreclaim : sunreclaim < 2 ^ 64)
    (hkernelstack : kernelstack < 2 ^ 64) (hpagetables : pagetables < 2 ^ 64) (hnfsunstable : nfsunstable < 2 ^ 64)
    (hbounce : bounce < 2 ^ 64) (hwritebacktmp : writebacktmp < 2 ^ 64) (hcommitlimit : commitlimit < 2 ^ 64)
    (hcommittedas : committedas < 2 ^ 64) (hvmalloctotal : vmalloctotal < 2 ^ 64) (hvmallocused : vmallocused < 2 ^ 64)
    (hvmallocchunk : vmallocchunk < 2 ^ 64) (hhardwarecorrupted : hardwarecorrupted < 2 ^ 64) (hanonhugepages : anonhugepages < 2 ^ 64)
    (hhugepagestotal : hugepagestotal < 2 ^ 64) (hhugepagesfree : hugepagesfree < 2 ^ 64) (hhugepagsersvd : hugepagsersvd < 2 ^ 64)
    (hhugepagessurp : hugepagessurp < 2 ^ 64) (hhugepagessize : hugepagessize < 2 ^ 64) (hdirectmap4k : directmap4k < 2 ^ 64)
    (hdirectmap2m : directmap2m < 2 ^ 64) :
    Meminfo.ofLines (memLines memtotal memfree memavailable buffers cached swapcached active inactive activeanon inactiveanon activefile inactivefile unevictable mlocked swaptotal swapfree dirty writeback anonpages mapped shmem slab srelclaimable sunreclaim kernelstack pagetables nfsunstable bounce writebacktmp commitlimit committedas vmalloctotal vmallocused vmallocchunk hardwarecorrupted anonhugepages hugepagestotal hugepagesfree hugepagsersvd hugepagessurp hugepagessize directmap4k directmap2m) = some
      { memtotal := memtotal,
        memfree := memfree,
        memavailable := memavailable,
        buffers := buffers,
        cached := cached,
        swapcached := swapcached,
        active := active,
        inactive := inactive,
        activeanon := activeanon,
        inactiveanon := inactiveanon,
        activefile := activefile,
        inactivefile := inactivefile,
        unevictable := unevictable,
        mlocked := mlocked,
        swaptotal := swaptotal,
        swapfree := swapfree,
        dirty := dirty,
        writeback := writeback,
        anonpages := anonpages,
        mapped := mapped,
        shmem := shmem,
        slab := slab,
        srelclaimable := srelclaimable,
        sunreclaim := sunreclaim,
        kernelstack := kernelstack,
        pagetables := pagetables,
        nfsunstable := nfsunstable,
        bounce := bounce,
        writebacktmp := writebacktmp,
        commitlimit := commitlimit,
        committedas := committedas,
        vmalloctotal := vmalloctotal,
        vmallocused := vmallocused,
        vmallocchunk := vmallocchunk,
        hardwarecorrupted := hardwarecorrupted,
        anonhugepages := anonhugepages,
        hugepagestotal := hugepagestotal,
        hugepagesfree := hugepagesfree,
        hugepagsersvd := hugepagsersvd,
        hugepagessurp := hugepagessurp,
        hugepagessize := hugepagessize,
        directmap4k := directmap4k,
        directmap2m := directmap2m,
        mainused := wsub64 (wsub64 (wsub64 memtotal memfree) cached) buffers,
        maincached := (cached + slab) % 2 ^ 64,
        mainswapused := wsub64 swaptotal swapfree } := by
  simp +decide only [Meminfo.ofLines, memLines, collectPairs,
    parse_line_mk "MemTotal" memtotal true (by decide) (by decide) hmemtotal,
    parse_line_mk "MemFree" memfree true (by decide) (by decide) hmemfree,
    parse_line_mk "MemAvailable" memavailable true (by decide) (by decide) hmemavailable,
    parse_line_mk "Buffers" buffers true (by decide) (by decide) hbuffers,
    parse_line_mk "Cached" cached true (by decide) (by decide) hcached,
    parse_line_mk "SwapCached" swapcached true (by decide) (by decide) hswapcached,
    parse_line_mk "Active" active true (by decide) (by decide) hactive,
    parse_line_mk "Inactive" inactive true (by decide) (by decide) hinactive,
    parse_line_mk "Active(anon)" activeanon true (by decide) (by decide) hactiveanon,
    parse_line_mk "Inactive(anon)" inactiveanon true (by decide) (by decide) hinactiveanon,
    parse_line_mk "Active(file)" activefile true (by decide) (by decide) hactivefile,
    parse_line_mk "Inactive(file)" inactivefile true (by decide) (by decide) hinactivefile,
    parse_line_mk "Unevictable" unevictable true (by decide) (by decide) hunevictable,
    parse_line_mk "Mlocked" mlocked true (by decide) (by decide) hmlocked,
    parse_line_mk "SwapTotal" swaptotal true (by decide) (by decide) hswaptotal,
    parse_line_mk "SwapFree" swapfree true (by decide) (by decide) hswapfree,
    parse_line_mk "Dirty" dirty true (by decide) (by decide) hdirty,
    parse_line_mk "Writeback" writeback true (by decide) (by decide) hwriteback,
    parse_line_mk "AnonPages" anonpages true (by decide) (by decide) hanonpages,
    parse_line_mk "Mapped" mapped true (by decide) (by decide) hmapped,
    parse_line_mk "Shmem" shmem true (by decide) (by decide) hshmem,
    parse_line_mk "Slab" slab true (by decide) (by decide) hslab,
    parse_line_mk "SReclaimable" srelclaimable true (by decide) (by decide) hsrelclaimable,
    parse_line_mk "SUnreclaim" sunreclaim true (by decide) (by decide) hsunreclaim,
    parse_line_mk "KernelStack" kernelstack true (by decide) (by decide) hkernelstack,
    parse_line_mk "PageTables" pagetables true (by decide) (by decide) hpagetables,
    parse_line_mk "NFS_Unstable" nfsunstable true (by decide) (by decide) hnfsunstable,
    parse_line_mk "Bounce" bounce true (by decide) (by decide) hbounce,
    parse_line_mk "WritebackTmp" writebacktmp true (by decide) (by decide) hwritebacktmp,
    parse_line_mk "CommitLimit" commitlimit true (by decide) (by decide) hcommitlimit,
    parse_line_mk "Committed_AS" committedas true (by decide) (by decide) hcommittedas,
    parse_line_mk "VmallocTotal" vmalloctotal true (by decide) (by decide) hvmalloctotal,
    parse_line_mk "VmallocUsed" vmallocused true (by decide) (by decide) hvmallocused,
    parse_line_mk "VmallocChunk" vmallocchunk true (by decide) (by decide) hvmallocchunk,
    parse_line_mk "HardwareCorrupted" hardwarecorrupted true (by decide) (by decide) hhardwarecorrupted,
    parse_line_mk "AnonHugePages" anonhugepages true (by decide) (by decide) hanonhugepages,
    parse_line_mk "HugePages_Total" hugepagestotal false (by decide) (by decide) hhugepagestotal,
    parse_line_mk "HugePages_Free" hugepagesfree false (by decide) (by decide) hhugepagesfree,
    parse_line_mk "HugePages_Rsvd" hugepagsersvd false (by decide) (by decide) hhugepagsersvd,
    parse_line_mk "HugePages_Surp" hugepagessurp false (by decide) (by decide) hhugepagessurp,
    parse_line_mk "Hugepagesize" hugepagessize true (by decide) (by decide) hhugepagessize,
    parse_line_mk "DirectMap4k" directmap4k true (by decide) (by decide) hdirectmap4k,
    parse_line_mk "DirectMap2M" directmap2m true (by decide) (by decide) hdirectmap2m,
    buildHMap, List.foldl, hmInsert, hmEmpty, build_minfo, if_false, if_true]

/-- C2 witness: the amended construction theorem at the concrete report of
`c2Lines`-shaped values. -/
theorem meminfo_construction_witness :
    Meminfo.ofLines (memLines 100 10 50 2 5 1 1 1 1 1 1 1 1 1 20 8 1 1 1 1 1 10 3 7 1 1 1 1 1 1 1 1 1 1 0 1 4 4 0 0 2048 1 1) = some
      { memtotal := 100,
        memfree := 10,
        memavailable := 50,
        buffers := 2,
        cached := 5,
        swapcached := 1,
        active := 1,
        inactive := 1,
        activeanon := 1,
        inactiveanon := 1,
        activefile := 1,
        inactivefile := 1,
        unevictable := 1,
        mlocked := 1,
        swaptotal := 20,
        swapfree := 8,
        dirty := 1,
        writeback := 1,
        anonpages := 1,
        mapped := 1,
        shmem := 1,
        slab := 10,
        srelclaimable := 3,
        sunreclaim := 7,
        kernelstack := 1,
        pagetables := 1,
        nfsunstable := 1,
        bounce := 1,
        writebacktmp := 1,
        commitlimit := 1,
        committedas := 1,
        vmalloctotal := 1,
        vmallocused := 1,
        vmallocchunk := 1,
        hardwarecorrupted := 0,
        anonhugepages := 1,
        hugepagestotal := 4,
        hugepagesfree := 4,
        hugepagsersvd := 0,
        hugepagessurp := 0,
        hugepagessize := 2048,
        directmap4k := 1,
        directmap2m := 1,
        mainused := wsub64 (wsub64 (wsub64 100 10) 5) 2,
        maincached := (5 + 10) % 2 ^ 64,
        mainswapused := wsub64 20 8 } :=
  meminfo_construction 100 10 50 2 5 1 1 1 1 1 1 1 1 1 20 8 1 1 1 1 1 10 3 7 1 1 1 1 1 1 1 1 1 1 0 1 4 4 0 0 2048 1 1
    (by decide) (by decide) (by decide) (by decide) (by decide) (by decide) (by decide) (by decide) (by decide) (by decide) (by decide) (by decide) (by decide) (by decide) (by decide) (by decide) (by decide) (by decide) (by decide) (by decide) (by decide) (by decide) (by decide) (by decide) (by decide) (by decide) (by decide) (by decide) (by decide) (by decide) (by decide) (by decide) (by decide) (by decide) (by decide) (by decide) (by decide) (by decide) (by decide) (by decide) (by decide) (by decide) (by decide)

/-- The `c2Lines` report with its `MemTotal` line omitted. -/
def memLinesNoTotal : List (List Char) :=
  ["MemFree: 10 kB".toList,
   "MemAvailable: 50 kB".toList,
   "Buffers: 2 kB".toList,
   "Cached: 5 kB".toList,
   "SwapCached: 1 kB".toList,
   "Active: 1 kB".toList,
   "Inactive: 1 kB".toList,
   "Active(anon): 1 kB".toList,
   "Inactive(anon): 1 kB".toList,
   "Active(file): 1 kB".toList,
   "Inactive(file): 1 kB".toList,
   "Unevictable: 1 kB".toList,
   "Mlocked: 1 kB".toList,
   "SwapTotal: 20 kB".toList,
   "SwapFree: 8 kB".toList,
   "Dirty: 1 kB".toList,
   "Writeback: 1 kB".toList,
   "AnonPages: 1 kB".toList,
   "Mapped: 1 kB".toList,
   "Shmem: 1 kB".toList,
   "Slab: 10 kB".toList,
   "SReclaimable: 3 kB".toList,
   "SUnreclaim: 7 kB".toList,
   "KernelStack: 1 kB".toList,
   "PageTables: 1 kB".toList,
   "NFS_Unstable: 1 kB".toList,
   "Bounce: 1 kB".toList,
   "WritebackTmp: 1 kB".toList,
   "CommitLimit: 1 kB".toList,
   "Committed_AS: 1 kB".toList,
   "VmallocTotal: 1 kB".toList,
   "VmallocUsed: 1 kB".toList,
   "VmallocChunk: 1 kB".toList,
   "HardwareCorrupted: 0 kB".toList,
   "AnonHugePages: 1 kB".toList,
   "HugePages_Total: 4".toList,
   "HugePages_Free: 4".toList,
   "HugePages_Rsvd: 0".toList,
   "HugePages_Surp: 0".toList,
   "Hugepagesize: 2048 kB".toList,
   "DirectMap4k: 1 kB".toList,
   "DirectMap2M: 1 kB".toList]

/-- The `c2Lines` report with its `SwapFree` line omitted. -/
def memLinesNoSwapFree : List (List Char) :=
  ["MemTotal: 100 kB".toList,
   "MemFree: 10 kB".toList,
   "MemAvailable: 50 kB".toList,
   "Buffers: 2 kB".toList,
   "Cached: 5 kB".toList,
   "SwapCached: 1 kB".toList,
   "Active: 1 kB".toList,
   "Inactive: 1 kB".toList,
   "Active(anon): 1 kB".toList,
   "Inactive(anon): 1 kB".toList,
   "Active(file): 1 kB".toList,
   "Inactive(file): 1 kB".toList,
   "Unevictable: 1 kB".toList,
   "Mlocked: 1 kB".toList,
   "SwapTotal: 20 kB".toList,
   "Dirty: 1 kB".toList,
   "Writeback: 1 kB".toList,
   "AnonPages: 1 kB".toList,
   "Mapped: 1 kB".toList,
   "Shmem: 1 kB".toList,
   "Slab: 10 kB".toList,
   "SReclaimable: 3 kB".toList,
   "SUnreclaim: 7 kB".toList,
   "KernelStack: 1 kB".toList,
   "PageTables: 1 kB".toList,
   "NFS_Unstable: 1 kB".toList,
   "Bounce: 1 kB".toList,
   "WritebackTmp: 1 kB".toList,
   "CommitLimit: 1 kB".toList,
   "Committed_AS: 1 kB".toList,
   "VmallocTotal: 1 kB".toList,
   "VmallocUsed: 1 kB".toList,
   "VmallocChunk: 1 kB".toList,
   "HardwareCorrupted: 0 kB".toList,
   "AnonHugePages: 1 kB".toList,
   "HugePages_Total: 4".toList,
   "HugePages_Free: 4".toList,
   "HugePages_Rsvd: 0".toList,
   "HugePages_Surp: 0".toList,
   "Hugepagesize: 2048 kB".toList,
   "DirectMap4k: 1 kB".toList,
   "DirectMap2M: 1 kB".toList]

/-- C6: a report omitting a consumed key (`MemTotal`, `SwapFree`) makes the
constructor hit `get(..).unwrap()` on `None` — a panic, modeled `none`: it
neither succeeds nor returns an error value naming the key (no
`MeminfoError` is ever constructed on the parse path). -/
theorem meminfo_missing_key_panics :
    Meminfo.ofLines memLinesNoTotal = none ∧
    Meminfo.ofLines memLinesNoSwapFree = none := by decide


/-! ## Combined record, query matcher, cmdline, and the directory-iterator
filter (`pid/mod.rs`) -/

/-- The combined `Pid` record (stat + status + cmdline).  The optional
per-process thread list is not modeled: no claim concerns it. -/
structure Pid where
  pid : Int
  stat : PidStat
  status : PidStatus
  cmdline : List (List Char)
  is_thread : Bool

inductive PidQuery
  | PidQuery (q : Int)
  | PpidQuery (q : Int)
  | NameQuery (q : List Char)
  | CmdlineQuery (q : List Char)
  | NoneQuery
deriving DecidableEq

/-- `PidQuery::taskid_query`: simple equality. -/
def PidQuery.taskid_query (tid query : Int) : Bool := tid == query

/-- `PidQuery::string_query`: substring search. -/
def PidQuery.string_query (text query : List Char) : Bool := containsSub text query

/-- `Vec::join(" ")`. -/
def joinSpace : List (List Char) → List Char
  | [] => []
  | [a] => a
  | a :: b :: r => a ++ ' ' :: joinSpace (b :: r)

/-- `Pid::query`: match this process against a query. -/
def Pid.query (p : Pid) (query : PidQuery) : Bool :=
  match query with
  | .PidQuery q => PidQuery.taskid_query p.stat.pid q
  | .PpidQuery q => PidQuery.taskid_query p.stat.ppid q
  | .NameQuery q => PidQuery.string_query p.stat.comm q
  | .CmdlineQuery q => PidQuery.string_query (joinSpace p.cmdline) q
  | .NoneQuery => true

/-- `PidQuery::create_query`: decode a user query string.  `splitn(2, '=')`
always yields at least one piece, so the source's `len() == 0` arm is
unreachable; ASCII lowercasing models `to_lowercase`.  The error type is the
user-message `String`, not a `ProcError`. -/
def create_query (query : List Char) : Except (List Char) PidQuery :=
  match (splitnFirst '=' query).2 with
  | none =>
    match parseIntW 32 query with
    | some tid => .ok (.PidQuery tid)
    | none => .ok (.NameQuery query)
  | some q_text =>
    if (splitnFirst '=' query).1.map Char.toLower = "pid".toList then
      match parseIntW 32 q_text with
      | some q => .ok (.PidQuery q)
      | none => .error ("Query value for type \x27pid\x27 not valid".toList)
    else if (splitnFirst '=' query).1.map Char.toLower = "ppid".toList then
      match parseIntW 32 q_text with
      | some q => .ok (.PpidQuery q)
      | none => .error ("Query value for type \x27ppid\x27 not valid".toList)
    else if (splitnFirst '=' query).1.map Char.toLower = "name".toList then
      .ok (.NameQuery q_text)
    else if (splitnFirst '=' query).1.map Char.toLower = "cmdline".toList then
      .ok (.CmdlineQuery q_text)
    else .error ("Invalid query type".toList)

/-- `Pid::read_cmdline`, the pure part after the bytes are read: strip one
trailing NUL if present, then split on NUL. -/
def read_cmdline_pure (contents : List Char) : List (List Char) :=
  splitChar '\x00'
    (if contents.getLast? = some '\x00' then contents.dropLast else contents)

/-- A directory entry: `file_name().into_string()` succeeds iff the name is
valid UTF-8, modeled as an `Option` of the name. -/
structure DirEntryM where
  file_name : Option (List Char)

/-- `PidIter::proc_dir_filter`, with the file-system-dependent
`Pid::new_dir` abstracted as `newDir`: an entry-read error or a non-UTF-8
name is yielded as an error; a non-integer name is skipped; a failed record
construction is yielded iff its error is hard and skipped iff soft; a built
record is yielded iff it matches the query. -/
def proc_dir_filter (entry_opt : Except Unit DirEntryM)
    (newDir : Int → Except ProcError Pid) (query : PidQuery) :
    Option (Except ProcError Pid) :=
  match entry_opt with
  | .error _ => some (.error ⟨.Reading, .ProcDir, some "PidIter"⟩)
  | .ok entry =>
    match entry.file_name with
    | none => some (.error ⟨.Parsing, .ProcDir, some "PidIter"⟩)
    | some name =>
      match parseIntW 32 name with
      | some pid =>
        match newDir pid with
        | .ok prc => if Pid.query prc query then some (.ok prc) else none
        | .error e => if e.is_hard then some (.error e) else none
      | none => none

/-- The sequence of items `PidIter::next` yields over a listing: successive
`proc_dir_filter` results, with `none`s skipped. -/
def pidIterItems (entries : List (Except Unit DirEntryM))
    (newDir : Int → Except ProcError Pid) (query : PidQuery) :
    List (Except ProcError Pid) :=
  entries.filterMap (fun e => proc_dir_filter e newDir query)

theorem splitnFirst_not_mem {sep : Char} {s : List Char} (h : sep ∉ s) :
    splitnFirst sep s = (s, none) := by
  induction s with
  | nil => rfl
  | cons c cs ih =>
    simp only [List.mem_cons, not_or] at h
    have hne : ¬ (c = sep) := fun hc => h.1 hc.symm
    simp [splitnFirst, hne, ih h.2]

theorem containsSub_nil (s : List Char) : containsSub s [] = true := by
  cases s <;> rw [containsSub] <;> rfl

theorem splitChar_ne_nil (sep : Char) (s : List Char) : splitChar sep s ≠ [] := by
  induction s with
  | nil => simp [splitChar]
  | cons c cs ih =>
    rw [splitChar]
    by_cases h : c = sep
    · simp [h]
    · simp only [h, if_false]
      cases hsp : splitChar sep cs with
      | nil => simp
      | cons t ts => simp


/-- C9: a bare token (no `=`) that parses as a number builds an exact
process-id query, matching exactly the records with that pid; a bare
non-numeric token builds a name-substring query; an unrecognized `key=`
prefix is the user-message error `"Invalid query type"` (a string, not a
`ProcError`); and the none query — as well as the empty query's resulting
empty-name search — matches every record. -/
theorem query_construction :
    (∀ tok n, '=' ∉ tok → parseIntW 32 tok = some n →
      create_query tok = .ok (.PidQuery n) ∧
      ∀ p : Pid, (Pid.query p (.PidQuery n) = true ↔ p.stat.pid = n)) ∧
    (∀ tok, '=' ∉ tok → parseIntW 32 tok = none →
      create_query tok = .ok (.NameQuery tok) ∧
      ∀ p : Pid, Pid.query p (.NameQuery tok) = containsSub p.stat.comm tok) ∧
    (∀ k rest, '=' ∉ k →
      ¬ (k.map Char.toLower = "pid".toList) →
      ¬ (k.map Char.toLower = "ppid".toList) →
      ¬ (k.map Char.toLower = "name".toList) →
      ¬ (k.map Char.toLower = "cmdline".toList) →
      create_query (k ++ '=' :: rest) = .error ("Invalid query type".toList)) ∧
    (∀ p : Pid, Pid.query p .NoneQuery = true) ∧
    (create_query [] = .ok (.NameQuery []) ∧
      ∀ p : Pid, Pid.query p (.NameQuery []) = true) := by
  refine ⟨?_, ?_, ?_, fun p => rfl, rfl, fun p => ?_⟩
  · intro tok n h1 h2
    refine ⟨?_, fun p => ?_⟩
    · simp only [create_query, splitnFirst_not_mem h1, h2]
    · simp [Pid.query, PidQuery.taskid_query, beq_iff_eq]
  · intro tok h1 h2
    refine ⟨?_, fun p => rfl⟩
    simp only [create_query, splitnFirst_not_mem h1, h2]
  · intro k rest h1 h2 h3 h4 h5
    simp only [create_query, splitnFirst_append h1, if_neg h2, if_neg h3,
      if_neg h4, if_neg h5]
  · simp [Pid.query, PidQuery.string_query, containsSub_nil]

/-- C9 witness: `"123"` becomes an exact pid query, `"bash"` a name search,
and `"foo=1"` the user-input error. -/
theorem query_construction_witness :
    create_query ("123".toList) = .ok (.PidQuery 123) ∧
    create_query ("bash".toList) = .ok (.NameQuery ("bash".toList)) ∧
    create_query ("foo".toList ++ '=' :: ("1".toList)) =
      .error ("Invalid query type".toList) :=
  ⟨(query_construction.1 ("123".toList) 123 (by decide) (by decide)).1,
   (query_construction.2.1 ("bash".toList) (by decide) (by decide)).1,
   query_construction.2.2.1 ("foo".toList) ("1".toList) (by decide) (by decide)
     (by decide) (by decide) (by decide)⟩

/-- C5: for a directory entry whose name parses as an integer but whose
record construction fails, the filter yields the error iff the error's
operation is `Parsing` or `ParsingField` (hard), and yields nothing iff it
is `Opening` or `Reading` (soft); over the yielded item sequence the entry
contributes `[error]` when hard and nothing when soft; an entry whose name
is not a valid integer is skipped with no error. -/
theorem iter_soft_hard_policy (newDir : Int → Except ProcError Pid)
    (query : PidQuery) :
    (∀ (entry : DirEntryM) (name : List Char) (pid : Int) (e : ProcError),
      entry.file_name = some name → parseIntW 32 name = some pid →
      newDir pid = .error e →
      ((proc_dir_filter (.ok entry) newDir query = some (.error e)) ↔
        (e.operation = .Parsing ∨ e.operation = .ParsingField)) ∧
      ((proc_dir_filter (.ok entry) newDir query = none) ↔
        (e.operation = .Opening ∨ e.operation = .Reading)) ∧
      (pidIterItems [.ok entry] newDir query =
        if e.is_hard then [.error e] else [])) ∧
    (∀ (entry : DirEntryM) (name : List Char),
      entry.file_name = some name → parseIntW 32 name = none →
      proc_dir_filter (.ok entry) newDir query = none) := by
  constructor
  · intro entry name pid e hn hp he
    have hred : proc_dir_filter (.ok entry) newDir query =
        if e.is_hard then some (.error e) else none := by
      simp only [proc_dir_filter, hn, hp, he]
    rcases e with ⟨op, file, more⟩
    cases op <;>
      simp_all [pidIterItems, List.filterMap, ProcError.is_hard, ProcOper.is_hard]
  · intro entry name hn hp
    simp only [proc_dir_filter, hn, hp]

/-- C5 witness: a hard (`Parsing`) construction failure is yielded, a soft
(`Opening`) one is skipped, and a non-integer entry name is skipped. -/
theorem iter_soft_hard_policy_witness :
    proc_dir_filter (.ok ⟨some ("42".toList)⟩)
        (fun _ => .error ⟨.Parsing, .PidStat, none⟩) .NoneQuery =
      some (.error ⟨.Parsing, .PidStat, none⟩) ∧
    proc_dir_filter (.ok ⟨some ("42".toList)⟩)
        (fun _ => .error ⟨.Opening, .PidStat, none⟩) .NoneQuery = none ∧
    proc_dir_filter (.ok ⟨some ("abc".toList)⟩)
        (fun _ => .error ⟨.Parsing, .PidStat, none⟩) .NoneQuery = none := by
  have h1 := ((iter_soft_hard_policy
      (fun _ => .error ⟨.Parsing, .PidStat, none⟩) .NoneQuery).1
      ⟨some ("42".toList)⟩ ("42".toList) 42 ⟨.Parsing, .PidStat, none⟩
      rfl (by decide) rfl).1
  have h2 := ((iter_soft_hard_policy
      (fun _ => .error ⟨.Opening, .PidStat, none⟩) .NoneQuery).1
      ⟨some ("42".toList)⟩ ("42".toList) 42 ⟨.Opening, .PidStat, none⟩
      rfl (by decide) rfl).2.1
  have h3 := (iter_soft_hard_policy
      (fun _ => .error ⟨.Parsing, .PidStat, none⟩) .NoneQuery).2
      ⟨some ("abc".toList)⟩ ("abc".toList) rfl (by decide)
  exact ⟨h1.mpr (Or.inl rfl), h2.mpr (Or.inl rfl), h3⟩

/-- C10: the cmdline argument list is never empty — after stripping at most
one trailing NUL, the split on NUL always yields at least one element; the
empty buffer and the single-NUL buffer both give exactly one empty
argument. -/
theorem cmdline_nonempty :
    (∀ contents, read_cmdline_pure contents ≠ []) ∧
    read_cmdline_pure [] = [[]] ∧
    read_cmdline_pure ['\x00'] = [[]] := by
  refine ⟨?_, rfl, rfl⟩
  intro contents
  rw [read_cmdline_pure]
  exact splitChar_ne_nil _ _

end ProcQ
